import Mathlib

/-!
# AOTInductor model-container runner

A shallow embedding of `torch/csrc/inductor/aoti_runner/model_container_runner.cpp`.

The runner is a synchronous facade over a loaded artifact.  The artifact is a
dynamically loaded module: its exported entry points are state transformers over
the artifact-side memory `σ`; each returns an integer status code together with
whatever it stored through its out-pointers.  Every invocation of an entry point
is recorded in a call trace, so that statements such as "no entry point is
invoked" can be expressed.

Type parameters used throughout:
* `σ` : artifact-side memory (the containers live here, invisible to the runner),
* `C` : the opaque container handle (`AOTInductorModelContainerHandle`),
* `T` : tensors (`at::Tensor`).
-/

namespace AOTI

/-! ## Errors, handles, the call trace -/

/-- Exceptions that leave the runner. -/
inductive RunnerError where
  /-- Models `at::DynamicLibraryError`: the module cannot be opened or a symbol cannot be resolved. -/
  | DynamicLibraryError (what : String)
  /-- Models `std::runtime_error` thrown by the runner itself (missing optional capability). -/
  | runtime_error (what : String)
  /-- Exception thrown by `AOTI_RUNTIME_ERROR_CODE_CHECK`: return code and name of the call. -/
  | api_call_failed (code : Int) (call : String)
  /-- Models `c10::Error` raised by a failed `TORCH_CHECK`. -/
  | c10_Error (what : String)
  deriving DecidableEq, Repr

/-- The success status `AOTI_RUNTIME_SUCCESS`. -/
def AOTI_RUNTIME_SUCCESS : Int := 0

/-- The proxy executor collaborator; only the arguments it was constructed from are kept. -/
structure OSSProxyExecutor where
  json_filename : String
  is_cpu : Bool
  deriving DecidableEq, Repr

/-- The type `AOTIProxyExecutorHandle`: `none` is the null handle. -/
abbrev AOTIProxyExecutorHandle := Option OSSProxyExecutor

/-- The type of `void* stream_handle` / `AOTInductorStreamHandle`, an opaque address (`0` is null). -/
abbrev StreamHandle := Nat

/-- Modelled from the spec: `AtenTensorHandle` (the tensor converter is not part of the
sources at hand).  A handle is an ABI-stable reference to one tensor; `none` is the null
handle a freshly allocated output array is filled with. -/
abbrev AtenTensorHandle (T : Type) := Option T

/-- The type `TensorConstantMap` (`std::unordered_map<std::string, at::Tensor*>`): an association
list read with `List.lookup`. -/
abbrev TensorConstantMap (T : Type) := List (String × T)

/-- Arguments passed at a call site, apart from the container handle. -/
inductive Args (T : Type) where
  | create (num_models : Nat) (device_str : String) (cubin_dir : Option String)
  | handle
  | run (input_handles : List (AtenTensorHandle T)) (n_in n_out : Nat)
      (stream : StreamHandle) (proxy_executor : AOTIProxyExecutorHandle)
  | index (i : Nat)
  | update (const_map : TensorConstantMap T) (use_inactive check_full_update : Bool)
  | update_inactive (const_map : TensorConstantMap T)
  | const_fold (use_inactive : Bool) (stream : StreamHandle)
      (proxy_executor : AOTIProxyExecutorHandle)
  deriving DecidableEq, Repr

/-- One invocation of an artifact entry point: which symbol, with what, and its status. -/
structure CallRecord (T : Type) where
  symbol : String
  args : Args T
  status : Int
  deriving DecidableEq, Repr

/-- Everything a runner operation can touch: the artifact-side memory and the call trace. -/
structure World (σ T : Type) where
  artifact : σ
  trace : List (CallRecord T)

/-- A runner operation: it may throw, and it may change the world either way. -/
def Op (σ T α : Type) : Type := World σ T → Except RunnerError α × World σ T

namespace Op

variable {σ T α β : Type}

/-- Normal return. -/
def ret (a : α) : Op σ T α := fun w => (.ok a, w)

/-- Sequencing: an exception skips the rest. -/
def andThen (m : Op σ T α) (f : α → Op σ T β) : Op σ T β := fun w =>
  match m w with
  | (.ok a, w') => f a w'
  | (.error e, w') => (.error e, w')

/-- A throw statement. -/
def raise (e : RunnerError) : Op σ T α := fun w => (.error e, w)

/-- A step that cannot touch the world (symbol resolution, string handling). -/
def ofExcept (x : Except RunnerError α) : Op σ T α := fun w => (x, w)

instance : Monad (Op σ T) where
  pure := ret
  bind := andThen

end Op

/-- A resolved function pointer: the symbol it was resolved from and the code behind it. -/
structure FnPtr (F : Type) where
  symbol : String
  code : F

/-! ## The artifact's entry-point table -/

section Signatures

variable (σ C T : Type)

/-- Signature of `AOTInductorModelContainerCreateWithDevice`. -/
abbrev CreateFn := Nat → String → Option String → σ → Int × C × σ
/-- Signature of delete / swap / free-inactive: `(handle)`. -/
abbrev HandleFn := C → σ → Int × σ
/-- Signature of get-num-outputs / get-num-constants: `(handle, size_t*)`. -/
abbrev GetNumFn := C → σ → Int × Nat × σ
/-- Signature of the run entry points.  The third component of the result is what the
callee stored into the output handle array, from index `0` on. -/
abbrev RunFn := C → List (AtenTensorHandle T) → Nat → Nat → StreamHandle →
  AOTIProxyExecutorHandle → σ → Int × List (AtenTensorHandle T) × σ
/-- Signature of get-constant-name / get-constant-original-fqn: `(handle, idx, const char**)`. -/
abbrev GetConstantStrFn := C → Nat → σ → Int × String × σ
/-- Signature of get-constant-dtype: `(handle, idx, int32_t*)`. -/
abbrev GetConstantDtypeFn := C → Nat → σ → Int × Int × σ
/-- Signature of update-constant-buffer: `(handle, map, use_inactive, check_full_update)`. -/
abbrev UpdateFn := C → TensorConstantMap T → Bool → Bool → σ → Int × σ
/-- Signature of update-inactive-constant-buffer: `(handle, map)`. -/
abbrev UpdateInactiveFn := C → TensorConstantMap T → σ → Int × σ
/-- Signature of run-constant-folding: `(handle, use_inactive, stream, proxy_executor)`. -/
abbrev ConstFoldFn := C → Bool → StreamHandle → AOTIProxyExecutorHandle → σ → Int × σ
/-- Signature of get-call-spec: `(handle, const char** in_spec, const char** out_spec)`. -/
abbrev GetCallSpecFn := C → σ → Int × (String × String) × σ

end Signatures

/-- A loaded module (`at::DynamicLibrary`).  One field per symbol the runner may ask for,
named after the symbol; `none` means `sym` fails for that name. -/
structure DynamicLibrary (σ C T : Type) where
  AOTInductorModelContainerCreateWithDevice : Option (CreateFn σ C)
  AOTInductorModelContainerDelete : Option (HandleFn σ C)
  AOTInductorModelContainerGetNumOutputs : Option (GetNumFn σ C)
  AOTInductorModelContainerRun : Option (RunFn σ C T)
  AOTInductorModelContainerRunSingleThreaded : Option (RunFn σ C T)
  AOTInductorModelContainerGetNumConstants : Option (GetNumFn σ C)
  AOTInductorModelContainerGetConstantName : Option (GetConstantStrFn σ C)
  AOTInductorModelContainerGetConstantOriginalFQN : Option (GetConstantStrFn σ C)
  AOTInductorModelContainerGetConstantDtype : Option (GetConstantDtypeFn σ C)
  AOTInductorModelContainerUpdateConstantBuffer : Option (UpdateFn σ C T)
  AOTInductorModelContainerUpdateInactiveConstantBuffer : Option (UpdateInactiveFn σ C T)
  AOTInductorModelContainerRunConstantFolding : Option (ConstFoldFn σ C)
  AOTInductorModelContainerSwapConstantBuffer : Option (HandleFn σ C)
  AOTInductorModelContainerGetCallSpec : Option (GetCallSpecFn σ C)
  AOTInductorModelContainerFreeInactiveConstantBuffer : Option (HandleFn σ C)

/-- Whether the module exports a symbol of the given name. -/
def DynamicLibrary.exports {σ C T : Type} (lib : DynamicLibrary σ C T) (name : String) : Bool :=
  if name = "AOTInductorModelContainerCreateWithDevice" then
    lib.AOTInductorModelContainerCreateWithDevice.isSome
  else if name = "AOTInductorModelContainerDelete" then
    lib.AOTInductorModelContainerDelete.isSome
  else if name = "AOTInductorModelContainerGetNumOutputs" then
    lib.AOTInductorModelContainerGetNumOutputs.isSome
  else if name = "AOTInductorModelContainerRun" then
    lib.AOTInductorModelContainerRun.isSome
  else if name = "AOTInductorModelContainerRunSingleThreaded" then
    lib.AOTInductorModelContainerRunSingleThreaded.isSome
  else if name = "AOTInductorModelContainerGetNumConstants" then
    lib.AOTInductorModelContainerGetNumConstants.isSome
  else if name = "AOTInductorModelContainerGetConstantName" then
    lib.AOTInductorModelContainerGetConstantName.isSome
  else if name = "AOTInductorModelContainerGetConstantOriginalFQN" then
    lib.AOTInductorModelContainerGetConstantOriginalFQN.isSome
  else if name = "AOTInductorModelContainerGetConstantDtype" then
    lib.AOTInductorModelContainerGetConstantDtype.isSome
  else if name = "AOTInductorModelContainerUpdateConstantBuffer" then
    lib.AOTInductorModelContainerUpdateConstantBuffer.isSome
  else if name = "AOTInductorModelContainerUpdateInactiveConstantBuffer" then
    lib.AOTInductorModelContainerUpdateInactiveConstantBuffer.isSome
  else if name = "AOTInductorModelContainerRunConstantFolding" then
    lib.AOTInductorModelContainerRunConstantFolding.isSome
  else if name = "AOTInductorModelContainerSwapConstantBuffer" then
    lib.AOTInductorModelContainerSwapConstantBuffer.isSome
  else if name = "AOTInductorModelContainerGetCallSpec" then
    lib.AOTInductorModelContainerGetCallSpec.isSome
  else if name = "AOTInductorModelContainerFreeInactiveConstantBuffer" then
    lib.AOTInductorModelContainerFreeInactiveConstantBuffer.isSome
  else false

/-- The class `AOTIModelContainerRunner`: the resolved symbol table, the proxy-executor
handle and the container handle.  `free_inactive_constant_buffer_func_` is the one pointer
that may be null. -/
structure AOTIModelContainerRunner (σ C T : Type) where
  create_func_ : FnPtr (CreateFn σ C)
  delete_func_ : FnPtr (HandleFn σ C)
  get_num_outputs_func_ : FnPtr (GetNumFn σ C)
  run_func_ : FnPtr (RunFn σ C T)
  get_num_constants_func_ : FnPtr (GetNumFn σ C)
  get_constant_name_func_ : FnPtr (GetConstantStrFn σ C)
  get_constant_original_fqn_func_ : FnPtr (GetConstantStrFn σ C)
  get_constant_dtype_func_ : FnPtr (GetConstantDtypeFn σ C)
  update_constant_buffer_func_ : FnPtr (UpdateFn σ C T)
  update_inactive_constant_buffer_func_ : FnPtr (UpdateInactiveFn σ C T)
  run_const_fold_func_ : FnPtr (ConstFoldFn σ C)
  swap_constant_buffer_func_ : FnPtr (HandleFn σ C)
  free_inactive_constant_buffer_func_ : Option (FnPtr (HandleFn σ C))
  get_call_spec_func_ : FnPtr (GetCallSpecFn σ C)
  proxy_executor_handle_ : AOTIProxyExecutorHandle
  container_handle_ : C

/-! ## Calling through the table -/

section Calls

variable {σ C T α β : Type}

/-- Calling an entry point: runs its code on the artifact-side memory and appends the call,
with the status it returned, to the trace. -/
def callEntry (symbol : String) (args : Args T) (body : σ → Int × α × σ)
    (w : World σ T) : Int × α × World σ T :=
  let r := body w.artifact
  (r.1, r.2.1, { artifact := r.2.2, trace := w.trace ++ [⟨symbol, args, r.1⟩] })

/-- Modelled from the spec: `AOTI_RUNTIME_ERROR_CODE_CHECK(call)`, whose definition is in a
header outside the sources at hand.  The call is made; a non-zero status is propagated as an
exception carrying the return code and the name of the entry point. -/
def AOTI_RUNTIME_ERROR_CODE_CHECK (symbol : String) (args : Args T)
    (body : σ → Int × α × σ) : Op σ T α := fun w =>
  let r := callEntry symbol args body w
  if r.1 ≠ AOTI_RUNTIME_SUCCESS then (.error (.api_call_failed r.1 symbol), r.2.2)
  else (.ok r.2.1, r.2.2)

/-- An entry point without out-parameters, seen as one that stores nothing. -/
def noOut (f : σ → Int × σ) : σ → Int × Unit × σ := fun s =>
  let r := f s
  (r.1, (), r.2)

/-- A counted loop `for (i = ...; ...; ++i)` over the given indices, threading the
loop-carried value; an exception in the body leaves the loop. -/
def forLoop (body : Nat → β → Op σ T β) : List Nat → β → Op σ T β
  | [], b => Op.ret b
  | i :: rest, b => Op.andThen (body i b) (forLoop body rest)

/-- The effect of `result.emplace(k, v)` on an `unordered_map`: nothing happens when the
key is already present. -/
def emplace (result : List (String × β)) (k : String) (v : β) : List (String × β) :=
  if (result.lookup k).isSome then result else result ++ [(k, v)]

/-- Modelled from the spec: `unsafe_alloc_new_handles_from_tensors` (tensor converter, not
in the sources at hand): one new handle per tensor, in the order of the tensors. -/
def unsafe_alloc_new_handles_from_tensors (tensors : List T) : List (AtenTensorHandle T) :=
  tensors.map some

/-- Modelled from the spec: `alloc_tensors_by_stealing_from_handles` (tensor converter, not
in the sources at hand): the first `length` handles are turned back into tensors, in order;
a null handle yields the undefined tensor `default`. -/
def alloc_tensors_by_stealing_from_handles [Inhabited T]
    (handles : List (AtenTensorHandle T)) (length : Nat) : List T :=
  (handles.take length).map (fun h => h.getD default)

/-- The output handle array after the callee stored `written` into it from index `0` on:
the array keeps its size, slots the callee did not reach keep their old content. -/
def storeOutputs (output_handles written : List (AtenTensorHandle T)) :
    List (AtenTensorHandle T) :=
  written.take output_handles.length ++ output_handles.drop written.length

end Calls

/-! ## Construction -/

section Construction

variable {σ C T : Type}

/-- The host the runner is constructed on: which modules can be opened, which files exist. -/
structure Host (σ C T : Type) where
  dlopen : String → Option (DynamicLibrary σ C T)
  file_exists : String → Bool

/-- The effect of `var = reinterpret_cast<decltype(var)>(model_so_->sym(name_str))`:
`sym` throws when the symbol is missing. -/
def LOAD_SYMBOL {F : Type} (name_str : String) (sym : Option F) :
    Except RunnerError (FnPtr F) :=
  match sym with
  | some f => .ok ⟨name_str, f⟩
  | none => .error (.DynamicLibraryError name_str)

/-- The same lookup inside `try ... catch (const at::DynamicLibraryError&)`: a missing symbol
leaves the pointer null. -/
def TRY_LOAD_SYMBOL {F : Type} (name_str : String) (sym : Option F) : Option (FnPtr F) :=
  match LOAD_SYMBOL name_str sym with
  | .ok f => some f
  | .error _ => none

/-- The method `std::string::find_last_of(char)`: index of the last occurrence, `none` for `npos`. -/
def find_last_of (s : List Char) (c : Char) : Option Nat :=
  (s.enum.foldl (fun acc p => if p.2 = c then some p.1 else acc) none)

/-- The method `std::string::substr(0, count)`, where `npos` (`none`) means up to the end. -/
def substr0 (s : List Char) (count : Option Nat) : List Char :=
  match count with
  | none => s
  | some n => s.take n

/-- The sidecar file name derived from the path of the module. -/
def json_filename (model_so_path : String) : String :=
  let lastindex := find_last_of model_so_path.toList '.'
  String.mk (substr0 model_so_path.toList lastindex) ++ ".json"

/-- The constructor `AOTIModelContainerRunner::AOTIModelContainerRunner`. -/
def AOTIModelContainerRunner.ctor (host : Host σ C T) (model_so_path : String)
    (num_models : Nat) (device_str : String) (cubin_dir : String)
    (run_single_threaded : Bool) : Op σ T (AOTIModelContainerRunner σ C T) := do
  let model_so_ ← Op.ofExcept (match host.dlopen model_so_path with
    | some lib => Except.ok lib
    | none => Except.error (RunnerError.DynamicLibraryError model_so_path))
  let create_func_ ← Op.ofExcept (LOAD_SYMBOL "AOTInductorModelContainerCreateWithDevice"
    model_so_.AOTInductorModelContainerCreateWithDevice)
  let delete_func_ ← Op.ofExcept (LOAD_SYMBOL "AOTInductorModelContainerDelete"
    model_so_.AOTInductorModelContainerDelete)
  let get_num_outputs_func_ ← Op.ofExcept (LOAD_SYMBOL "AOTInductorModelContainerGetNumOutputs"
    model_so_.AOTInductorModelContainerGetNumOutputs)
  let run_func_ ← Op.ofExcept (
    if run_single_threaded then
      LOAD_SYMBOL "AOTInductorModelContainerRunSingleThreaded"
        model_so_.AOTInductorModelContainerRunSingleThreaded
    else
      LOAD_SYMBOL "AOTInductorModelContainerRun" model_so_.AOTInductorModelContainerRun)
  let get_num_constants_func_ ← Op.ofExcept (LOAD_SYMBOL
    "AOTInductorModelContainerGetNumConstants"
    model_so_.AOTInductorModelContainerGetNumConstants)
  let get_constant_name_func_ ← Op.ofExcept (LOAD_SYMBOL
    "AOTInductorModelContainerGetConstantName"
    model_so_.AOTInductorModelContainerGetConstantName)
  let get_constant_original_fqn_func_ ← Op.ofExcept (LOAD_SYMBOL
    "AOTInductorModelContainerGetConstantOriginalFQN"
    model_so_.AOTInductorModelContainerGetConstantOriginalFQN)
  let get_constant_dtype_func_ ← Op.ofExcept (LOAD_SYMBOL
    "AOTInductorModelContainerGetConstantDtype"
    model_so_.AOTInductorModelContainerGetConstantDtype)
  let update_constant_buffer_func_ ← Op.ofExcept (LOAD_SYMBOL
    "AOTInductorModelContainerUpdateConstantBuffer"
    model_so_.AOTInductorModelContainerUpdateConstantBuffer)
  let update_inactive_constant_buffer_func_ ← Op.ofExcept (LOAD_SYMBOL
    "AOTInductorModelContainerUpdateInactiveConstantBuffer"
    model_so_.AOTInductorModelContainerUpdateInactiveConstantBuffer)
  let run_const_fold_func_ ← Op.ofExcept (LOAD_SYMBOL
    "AOTInductorModelContainerRunConstantFolding"
    model_so_.AOTInductorModelContainerRunConstantFolding)
  let swap_constant_buffer_func_ ← Op.ofExcept (LOAD_SYMBOL
    "AOTInductorModelContainerSwapConstantBuffer"
    model_so_.AOTInductorModelContainerSwapConstantBuffer)
  let get_call_spec_func_ ← Op.ofExcept (LOAD_SYMBOL "AOTInductorModelContainerGetCallSpec"
    model_so_.AOTInductorModelContainerGetCallSpec)
  let free_inactive_constant_buffer_func_ := TRY_LOAD_SYMBOL
    "AOTInductorModelContainerFreeInactiveConstantBuffer"
    model_so_.AOTInductorModelContainerFreeInactiveConstantBuffer
  -- Hack to find the json file name from the model so file
  let json := json_filename model_so_path
  let proxy_executor_handle_ : AOTIProxyExecutorHandle :=
    if host.file_exists json then some ⟨json, device_str == "cpu"⟩ else none
  let cubin := if cubin_dir.isEmpty then none else some cubin_dir
  let container_handle_ ← AOTI_RUNTIME_ERROR_CODE_CHECK create_func_.symbol
    (Args.create num_models device_str cubin)
    (create_func_.code num_models device_str cubin)
  return {
    create_func_, delete_func_, get_num_outputs_func_, run_func_, get_num_constants_func_,
    get_constant_name_func_, get_constant_original_fqn_func_, get_constant_dtype_func_,
    update_constant_buffer_func_, update_inactive_constant_buffer_func_,
    run_const_fold_func_, swap_constant_buffer_func_, free_inactive_constant_buffer_func_,
    get_call_spec_func_, proxy_executor_handle_, container_handle_ }

/-- The destructor `AOTIModelContainerRunner::~AOTIModelContainerRunner`. The error result
stands for the `c10::Error` that the failed `TORCH_CHECK` throws; a destructor being
`noexcept`, that exception does not reach a caller: the process terminates there. -/
def AOTIModelContainerRunner.dtor (r : AOTIModelContainerRunner σ C T) : Op σ T Unit :=
  fun w =>
    let res := callEntry r.delete_func_.symbol Args.handle
      (noOut (r.delete_func_.code r.container_handle_)) w
    if res.1 = AOTI_RUNTIME_SUCCESS then (.ok (), res.2.2)
    else (.error (.c10_Error "AOTInductorModelContainerDelete failed"), res.2.2)

end Construction

/-! ## Operations -/

namespace AOTIModelContainerRunner

variable {σ C T : Type}

/-- The method `run_impl`. -/
def run_impl [Inhabited T] (r : AOTIModelContainerRunner σ C T)
    (input_handles : List (AtenTensorHandle T)) (stream_handle : StreamHandle) :
    Op σ T (List T) := do
  -- For outputs, we only allocate a vector to hold returned tensor handles,
  -- not allocating the actual output tensor storage here
  let num_outputs ← AOTI_RUNTIME_ERROR_CODE_CHECK r.get_num_outputs_func_.symbol Args.handle
    (r.get_num_outputs_func_.code r.container_handle_)
  let output_handles : List (AtenTensorHandle T) := List.replicate num_outputs none
  let written ← AOTI_RUNTIME_ERROR_CODE_CHECK r.run_func_.symbol
    (Args.run input_handles input_handles.length output_handles.length stream_handle
      r.proxy_executor_handle_)
    (r.run_func_.code r.container_handle_ input_handles input_handles.length
      output_handles.length stream_handle r.proxy_executor_handle_)
  let output_handles := storeOutputs output_handles written
  return alloc_tensors_by_stealing_from_handles output_handles output_handles.length

/-- The method `run`. -/
def run [Inhabited T] (r : AOTIModelContainerRunner σ C T) (inputs : List T)
    (stream_handle : StreamHandle) : Op σ T (List T) :=
  let input_handles := unsafe_alloc_new_handles_from_tensors inputs
  r.run_impl input_handles stream_handle

/-- The method `boxed_run`.  The second component is the caller's `inputs` vector after the
call: it is cleared before the artifact is entered, whatever happens next. -/
def boxed_run [Inhabited T] (r : AOTIModelContainerRunner σ C T) (inputs : List T)
    (stream_handle : StreamHandle) : Op σ T (List T) × List T :=
  let input_handles := unsafe_alloc_new_handles_from_tensors inputs
  let inputs : List T := []
  (r.run_impl input_handles stream_handle, inputs)

/-- The method `getConstantNamesToOriginalFQNs`. -/
def getConstantNamesToOriginalFQNs (r : AOTIModelContainerRunner σ C T) :
    Op σ T (List (String × String)) := do
  let num_constants ← AOTI_RUNTIME_ERROR_CODE_CHECK r.get_num_constants_func_.symbol
    Args.handle (r.get_num_constants_func_.code r.container_handle_)
  forLoop (fun i result => do
    let name ← AOTI_RUNTIME_ERROR_CODE_CHECK r.get_constant_name_func_.symbol (Args.index i)
      (r.get_constant_name_func_.code r.container_handle_ i)
    let original_fqn ← AOTI_RUNTIME_ERROR_CODE_CHECK r.get_constant_original_fqn_func_.symbol
      (Args.index i) (r.get_constant_original_fqn_func_.code r.container_handle_ i)
    return emplace result name original_fqn) (List.range num_constants) []

/-- The method `getConstantNamesToDtypes`. -/
def getConstantNamesToDtypes (r : AOTIModelContainerRunner σ C T) :
    Op σ T (List (String × Int)) := do
  let num_constants ← AOTI_RUNTIME_ERROR_CODE_CHECK r.get_num_constants_func_.symbol
    Args.handle (r.get_num_constants_func_.code r.container_handle_)
  forLoop (fun i result => do
    let name ← AOTI_RUNTIME_ERROR_CODE_CHECK r.get_constant_name_func_.symbol (Args.index i)
      (r.get_constant_name_func_.code r.container_handle_ i)
    let dtype ← AOTI_RUNTIME_ERROR_CODE_CHECK r.get_constant_dtype_func_.symbol
      (Args.index i) (r.get_constant_dtype_func_.code r.container_handle_ i)
    return emplace result name dtype) (List.range num_constants) []

/-- The method `update_constant_buffer(const TensorConstantMap&, bool, bool)`. -/
def update_constant_buffer (r : AOTIModelContainerRunner σ C T)
    (const_map : TensorConstantMap T) (use_inactive : Bool) (check_full_update : Bool) :
    Op σ T Unit :=
  AOTI_RUNTIME_ERROR_CODE_CHECK r.update_constant_buffer_func_.symbol
    (Args.update const_map use_inactive check_full_update)
    (noOut (r.update_constant_buffer_func_.code r.container_handle_ const_map use_inactive
      check_full_update))

/-- The overload `update_constant_buffer(std::unordered_map<std::string, at::Tensor>&, bool,
bool)`: the tensor map is first turned into a `TensorConstantMap`. -/
def update_constant_buffer_tensor_map (r : AOTIModelContainerRunner σ C T)
    (tensor_map : List (String × T)) (use_inactive : Bool) (check_full_update : Bool) :
    Op σ T Unit :=
  let const_map : TensorConstantMap T :=
    tensor_map.foldl (fun const_map kv => emplace const_map kv.1 kv.2) []
  AOTI_RUNTIME_ERROR_CODE_CHECK r.update_constant_buffer_func_.symbol
    (Args.update const_map use_inactive check_full_update)
    (noOut (r.update_constant_buffer_func_.code r.container_handle_ const_map use_inactive
      check_full_update))

/-- The method `update_inactive_constant_buffer`. -/
def update_inactive_constant_buffer (r : AOTIModelContainerRunner σ C T)
    (const_map : TensorConstantMap T) : Op σ T Unit :=
  AOTI_RUNTIME_ERROR_CODE_CHECK r.update_inactive_constant_buffer_func_.symbol
    (Args.update_inactive const_map)
    (noOut (r.update_inactive_constant_buffer_func_.code r.container_handle_ const_map))

/-- The method `run_const_fold`. -/
def run_const_fold (r : AOTIModelContainerRunner σ C T) (use_inactive : Bool)
    (cuda_stream_handle : StreamHandle) : Op σ T Unit :=
  AOTI_RUNTIME_ERROR_CODE_CHECK r.run_const_fold_func_.symbol
    (Args.const_fold use_inactive cuda_stream_handle r.proxy_executor_handle_)
    (noOut (r.run_const_fold_func_.code r.container_handle_ use_inactive cuda_stream_handle
      r.proxy_executor_handle_))

/-- The method `swap_constant_buffer`. -/
def swap_constant_buffer (r : AOTIModelContainerRunner σ C T) : Op σ T Unit :=
  AOTI_RUNTIME_ERROR_CODE_CHECK r.swap_constant_buffer_func_.symbol Args.handle
    (noOut (r.swap_constant_buffer_func_.code r.container_handle_))

/-- The method `free_inactive_constant_buffer`. -/
def free_inactive_constant_buffer (r : AOTIModelContainerRunner σ C T) : Op σ T Unit :=
  match r.free_inactive_constant_buffer_func_ with
  | none => Op.raise (.runtime_error
      "No free_inactive_constant_buffer in .so! Consider rebuild .so with latest package.")
  | some free_inactive_constant_buffer_func_ =>
    AOTI_RUNTIME_ERROR_CODE_CHECK free_inactive_constant_buffer_func_.symbol Args.handle
      (noOut (free_inactive_constant_buffer_func_.code r.container_handle_))

/-- The method `get_call_spec`. -/
def get_call_spec (r : AOTIModelContainerRunner σ C T) : Op σ T (List String) := do
  let spec ← AOTI_RUNTIME_ERROR_CODE_CHECK r.get_call_spec_func_.symbol Args.handle
    (r.get_call_spec_func_.code r.container_handle_)
  return [spec.1, spec.2]

end AOTIModelContainerRunner

/-! ## The operations as one step function -/

section Step

variable {σ C T : Type}

/-- The operations a caller can issue against a constructed runner. -/
inductive Operation (T : Type) where
  | run (inputs : List T) (stream_handle : StreamHandle)
  | boxed_run (inputs : List T) (stream_handle : StreamHandle)
  | getConstantNamesToOriginalFQNs
  | getConstantNamesToDtypes
  | update_constant_buffer (const_map : TensorConstantMap T)
      (use_inactive check_full_update : Bool)
  | update_constant_buffer_tensor_map (tensor_map : List (String × T))
      (use_inactive check_full_update : Bool)
  | update_inactive_constant_buffer (const_map : TensorConstantMap T)
  | run_const_fold (use_inactive : Bool) (cuda_stream_handle : StreamHandle)
  | swap_constant_buffer
  | free_inactive_constant_buffer
  | get_call_spec

/-- What an operation hands back to its caller. -/
inductive Returned (T : Type) where
  | tensors (outputs : List T)
  | names (result : List (String × String))
  | dtypes (result : List (String × Int))
  | nothing
  | call_spec (specs : List String)

/-- Mapping the value an operation returns. -/
def Op.mapResult {σ T α β : Type} (f : α → β) (m : Op σ T α) : Op σ T β :=
  Op.andThen m (fun a => Op.ret (f a))

/-- One transition of the runner: the named method is called. -/
def AOTIModelContainerRunner.step [Inhabited T] (r : AOTIModelContainerRunner σ C T) :
    Operation T → Op σ T (Returned T)
  | .run inputs stream_handle => Op.mapResult .tensors (r.run inputs stream_handle)
  | .boxed_run inputs stream_handle =>
      Op.mapResult .tensors (r.boxed_run inputs stream_handle).1
  | .getConstantNamesToOriginalFQNs => Op.mapResult .names r.getConstantNamesToOriginalFQNs
  | .getConstantNamesToDtypes => Op.mapResult .dtypes r.getConstantNamesToDtypes
  | .update_constant_buffer const_map use_inactive check_full_update =>
      Op.mapResult (fun _ => .nothing)
        (r.update_constant_buffer const_map use_inactive check_full_update)
  | .update_constant_buffer_tensor_map tensor_map use_inactive check_full_update =>
      Op.mapResult (fun _ => .nothing)
        (r.update_constant_buffer_tensor_map tensor_map use_inactive check_full_update)
  | .update_inactive_constant_buffer const_map =>
      Op.mapResult (fun _ => .nothing) (r.update_inactive_constant_buffer const_map)
  | .run_const_fold use_inactive cuda_stream_handle =>
      Op.mapResult (fun _ => .nothing) (r.run_const_fold use_inactive cuda_stream_handle)
  | .swap_constant_buffer => Op.mapResult (fun _ => .nothing) r.swap_constant_buffer
  | .free_inactive_constant_buffer =>
      Op.mapResult (fun _ => .nothing) r.free_inactive_constant_buffer
  | .get_call_spec => Op.mapResult .call_spec r.get_call_spec

/-- The symbols the constructor resolves with `LOAD_SYMBOL`, in the order it resolves them;
the run variant is the one selected by `run_single_threaded`. -/
def mandatorySymbols (run_single_threaded : Bool) : List String :=
  [ "AOTInductorModelContainerCreateWithDevice",
    "AOTInductorModelContainerDelete",
    "AOTInductorModelContainerGetNumOutputs",
    if run_single_threaded then "AOTInductorModelContainerRunSingleThreaded"
    else "AOTInductorModelContainerRun",
    "AOTInductorModelContainerGetNumConstants",
    "AOTInductorModelContainerGetConstantName",
    "AOTInductorModelContainerGetConstantOriginalFQN",
    "AOTInductorModelContainerGetConstantDtype",
    "AOTInductorModelContainerUpdateConstantBuffer",
    "AOTInductorModelContainerUpdateInactiveConstantBuffer",
    "AOTInductorModelContainerRunConstantFolding",
    "AOTInductorModelContainerSwapConstantBuffer",
    "AOTInductorModelContainerGetCallSpec" ]

/-- The calls an operation added to the trace, given the worlds before and after. -/
def newCalls (before after : World σ T) : List (CallRecord T) :=
  after.trace.drop before.trace.length

/-- Error propagation as the runner performs it on one operation: the operation appended
`calls` to the trace; it returned normally and every call reported success, or it threw, the
last call made is the only one with a non-zero status, and the exception carries that status
and the name of that call. -/
def Propagates {α : Type} (before : World σ T)
    (outcome : Except RunnerError α × World σ T) : Prop :=
  ∃ calls : List (CallRecord T),
    outcome.2.trace = before.trace ++ calls ∧
    match outcome.1 with
    | .ok _ => ∀ c ∈ calls, c.status = 0
    | .error e =>
        ∃ (pre : List (CallRecord T)) (c : CallRecord T),
          calls = pre ++ [c] ∧ (∀ p ∈ pre, p.status = 0) ∧ c.status ≠ 0 ∧
          e = .api_call_failed c.status c.symbol

end Step

/-! ## The container behind the handle

The compiled container lives inside the artifact and is not part of the sources at hand.
What follows renders the description the specification gives of it: two constant-buffer
slots, a designation of the active one, raw constants and a cache of folded constants per
slot. -/

section Container

variable {T : Type}

/-- Modelled from the spec: the compiled model inside an artifact (not in the sources at
hand).  It requires the constants `constants` (name, original name, dtype, by index), expects
`num_inputs` inputs and produces `num_outputs` outputs; `forward k inputs i` is output `i`
computed from the constants `k` it is served, and `fold` precomputes derived constants from
raw ones when the artifact performs constant folding.  The specification leaves open what
a failed full update leaves in the targeted slot: `written_on_reject m` are the entries the
artifact has already written when it rejects the map `m`, none for an all-or-nothing
artifact. -/
structure ModelDesc (T : Type) where
  constants : List (String × String × Int)
  num_inputs : Nat
  num_outputs : Nat
  use_runtime_constant_folding : Bool
  burned_in : String → Option T
  fold : List (Option T) → List (Option T)
  forward : List (Option T) → List (AtenTensorHandle T) → Nat → T
  in_spec : String
  out_spec : String
  written_on_reject : TensorConstantMap T → TensorConstantMap T

/-- Modelled from the spec: names of the constants the model requires, by index. -/
def ModelDesc.names (desc : ModelDesc T) : List String :=
  desc.constants.map (fun c => c.1)

/-- Modelled from the spec: one constant-buffer slot, holding the raw constants written
into it and the folded constants computed by the last constant-folding run on it. -/
structure ConstantBuffer (T : Type) where
  raw : String → Option T
  folded : List (Option T)

/-- Modelled from the spec: a slot without storage (never written, or freed). -/
def ConstantBuffer.empty : ConstantBuffer T :=
  { raw := fun _ => none, folded := [] }

/-- Modelled from the spec: the state behind a container handle, two constant-buffer slots
and the designation of the active one (`false`: slot 0 is active, `true`: slot 1 is). -/
structure Container (T : Type) where
  slot0 : ConstantBuffer T
  slot1 : ConstantBuffer T
  active : Bool

namespace Container

/-- Modelled from the spec: the slot with the given physical index. -/
def slot (c : Container T) (second : Bool) : ConstantBuffer T :=
  if second then c.slot1 else c.slot0

/-- Modelled from the spec: replacing the slot with the given physical index. -/
def setSlot (c : Container T) (second : Bool) (b : ConstantBuffer T) : Container T :=
  if second then { c with slot1 := b } else { c with slot0 := b }

/-- Modelled from the spec: the physical index selected by the caller's `use_inactive` flag
(`false` is the active slot, `true` the inactive one). -/
def target (c : Container T) (use_inactive : Bool) : Bool :=
  xor c.active use_inactive

/-- Modelled from the spec: whether the slot with physical index `i` is the active one. -/
def isActive (c : Container T) (i : Fin 2) : Prop :=
  i = (if c.active then 1 else 0)

/-- Modelled from the spec: the constants the model requires, read from the raw constants
of a slot, by index. -/
def readRaw (desc : ModelDesc T) (b : ConstantBuffer T) : List (Option T) :=
  desc.names.map b.raw

/-- Modelled from the spec: the constants inference is served from a slot, the cached
folded constants when the artifact performs constant folding and the raw ones otherwise. -/
def served (desc : ModelDesc T) (b : ConstantBuffer T) : List (Option T) :=
  if desc.use_runtime_constant_folding then b.folded else readRaw desc b

/-- Modelled from the spec: the container right after creation, the active slot holds the
constants burned in at build time, the inactive slot holds nothing. -/
def initial (desc : ModelDesc T) : Container T :=
  { slot0 := { raw := desc.burned_in, folded := desc.fold (desc.names.map desc.burned_in) },
    slot1 := ConstantBuffer.empty,
    active := false }

/-- Modelled from the spec: create-with-device allocates the container. -/
def create (desc : ModelDesc T) : CreateFn (Container T) Unit :=
  fun _ _ _ _ => (0, (), initial desc)

/-- Modelled from the spec: delete releases the container. -/
def delete : HandleFn (Container T) Unit :=
  fun _ c => (0, c)

/-- Modelled from the spec: get-num-outputs reports the output arity. -/
def get_num_outputs (desc : ModelDesc T) : GetNumFn (Container T) Unit :=
  fun _ c => (0, desc.num_outputs, c)

/-- Modelled from the spec: the outputs of the model served the constants `k`. -/
def outputs (desc : ModelDesc T) (k : List (Option T))
    (input_handles : List (AtenTensorHandle T)) : List T :=
  (List.range desc.num_outputs).map (desc.forward k input_handles)

/-- Modelled from the spec: run validates the input count, reads the active slot and
stores one freshly allocated handle per output. -/
def run (desc : ModelDesc T) : RunFn (Container T) Unit T :=
  fun _ input_handles n_in _ _ _ c =>
    if n_in = desc.num_inputs then
      (0, (outputs desc (served desc (c.slot c.active)) input_handles).map some, c)
    else (1, [], c)

/-- Modelled from the spec: get-num-constants reports the number of constants. -/
def get_num_constants (desc : ModelDesc T) : GetNumFn (Container T) Unit :=
  fun _ c => (0, desc.constants.length, c)

/-- Modelled from the spec: get-constant-name resolves the name at an index. -/
def get_constant_name (desc : ModelDesc T) : GetConstantStrFn (Container T) Unit :=
  fun _ i c => match desc.constants.get? i with
    | some k => (0, k.1, c)
    | none => (1, "", c)

/-- Modelled from the spec: get-constant-original-fqn resolves the original name at an
index. -/
def get_constant_original_fqn (desc : ModelDesc T) : GetConstantStrFn (Container T) Unit :=
  fun _ i c => match desc.constants.get? i with
    | some k => (0, k.2.1, c)
    | none => (1, "", c)

/-- Modelled from the spec: get-constant-dtype resolves the dtype at an index. -/
def get_constant_dtype (desc : ModelDesc T) : GetConstantDtypeFn (Container T) Unit :=
  fun _ i c => match desc.constants.get? i with
    | some k => (0, k.2.2, c)
    | none => (1, 0, c)

/-- Modelled from the spec: writing the entries of a constant map into raw constants; a
name the map does not mention keeps its value. -/
def overlay (raw : String → Option T) (const_map : TensorConstantMap T) : String → Option T :=
  fun name => match const_map.lookup name with
    | some t => some t
    | none => raw name

/-- Modelled from the spec: whether the map has an entry for every constant the model
requires. -/
def covers (desc : ModelDesc T) (const_map : TensorConstantMap T) : Bool :=
  desc.names.all (fun name => (const_map.lookup name).isSome)

/-- Modelled from the spec: update-constant-buffer writes the entries of the map into the
slot selected by `use_inactive`; with `check_full_update` a map that omits a required
constant is rejected, and the targeted slot is left unmodified or partially modified as the
artifact has it: the entries `written_on_reject` are in it. -/
def update_constant_buffer (desc : ModelDesc T) : UpdateFn (Container T) Unit T :=
  fun _ const_map use_inactive check_full_update c =>
    let i := c.target use_inactive
    if check_full_update && !(covers desc const_map) then
      (1, c.setSlot i
        { c.slot i with raw := overlay (c.slot i).raw (desc.written_on_reject const_map) })
    else
      (0, c.setSlot i { c.slot i with raw := overlay (c.slot i).raw const_map })

/-- Modelled from the spec: update-inactive-constant-buffer is the convenience form that
always targets the inactive slot, without full-update checking. -/
def update_inactive_constant_buffer (desc : ModelDesc T) :
    UpdateInactiveFn (Container T) Unit T :=
  fun h const_map c => update_constant_buffer desc h const_map true false c

/-- Modelled from the spec: run-constant-folding recomputes the folded constants of the
selected slot from the raw constants currently in it. -/
def run_const_fold (desc : ModelDesc T) : ConstFoldFn (Container T) Unit :=
  fun _ use_inactive _ _ c =>
    let i := c.target use_inactive
    (0, c.setSlot i { c.slot i with folded := desc.fold (readRaw desc (c.slot i)) })

/-- Modelled from the spec: swap-constant-buffer exchanges which slot is active. -/
def swap_constant_buffer : HandleFn (Container T) Unit :=
  fun _ c => (0, { c with active := !c.active })

/-- Modelled from the spec: free-inactive-constant-buffer releases the storage of the
inactive slot. -/
def free_inactive_constant_buffer : HandleFn (Container T) Unit :=
  fun _ c => (0, c.setSlot (c.target true) ConstantBuffer.empty)

/-- Modelled from the spec: get-call-spec reports the two structural descriptors. -/
def get_call_spec (desc : ModelDesc T) : GetCallSpecFn (Container T) Unit :=
  fun _ c => (0, (desc.in_spec, desc.out_spec), c)

end Container

/-- Modelled from the spec: the module of an artifact built from `desc`; `has_free` tells
whether it exports the optional free-inactive-constant-buffer symbol (older artifacts do
not). -/
def specLibrary (desc : ModelDesc T) (has_free : Bool) : DynamicLibrary (Container T) Unit T :=
  { AOTInductorModelContainerCreateWithDevice := some (Container.create desc)
    AOTInductorModelContainerDelete := some Container.delete
    AOTInductorModelContainerGetNumOutputs := some (Container.get_num_outputs desc)
    AOTInductorModelContainerRun := some (Container.run desc)
    AOTInductorModelContainerRunSingleThreaded := some (Container.run desc)
    AOTInductorModelContainerGetNumConstants := some (Container.get_num_constants desc)
    AOTInductorModelContainerGetConstantName := some (Container.get_constant_name desc)
    AOTInductorModelContainerGetConstantOriginalFQN :=
      some (Container.get_constant_original_fqn desc)
    AOTInductorModelContainerGetConstantDtype := some (Container.get_constant_dtype desc)
    AOTInductorModelContainerUpdateConstantBuffer := some (Container.update_constant_buffer desc)
    AOTInductorModelContainerUpdateInactiveConstantBuffer :=
      some (Container.update_inactive_constant_buffer desc)
    AOTInductorModelContainerRunConstantFolding := some (Container.run_const_fold desc)
    AOTInductorModelContainerSwapConstantBuffer := some Container.swap_constant_buffer
    AOTInductorModelContainerGetCallSpec := some (Container.get_call_spec desc)
    AOTInductorModelContainerFreeInactiveConstantBuffer :=
      if has_free then some Container.free_inactive_constant_buffer else none }

/-- A host on which every path opens the given module and which has the listed files. -/
def hostOf {σ C : Type} (lib : DynamicLibrary σ C T) (files : List String) : Host σ C T :=
  { dlopen := fun _ => some lib, file_exists := fun path => files.contains path }

/-- The reference output of the model computed with the constants `w` directly. -/
def referenceOutput (desc : ModelDesc T) (w : TensorConstantMap T) (inputs : List T) : List T :=
  let k := desc.names.map (fun name => w.lookup name)
  Container.outputs desc (if desc.use_runtime_constant_folding then desc.fold k else k)
    (unsafe_alloc_new_handles_from_tensors inputs)

end Container

/-! ## Runners built from a module -/

section Built

variable {σ C T : Type}

/-- The runner holds exactly the entry points the constructor resolves from the module:
each pointer is the export of the name it was asked for. -/
def ResolvedFrom (r : AOTIModelContainerRunner σ C T) (lib : DynamicLibrary σ C T)
    (run_single_threaded : Bool) : Prop :=
  lib.AOTInductorModelContainerCreateWithDevice = some r.create_func_.code ∧
  r.create_func_.symbol = "AOTInductorModelContainerCreateWithDevice" ∧
  lib.AOTInductorModelContainerDelete = some r.delete_func_.code ∧
  r.delete_func_.symbol = "AOTInductorModelContainerDelete" ∧
  lib.AOTInductorModelContainerGetNumOutputs = some r.get_num_outputs_func_.code ∧
  r.get_num_outputs_func_.symbol = "AOTInductorModelContainerGetNumOutputs" ∧
  (if run_single_threaded then lib.AOTInductorModelContainerRunSingleThreaded
    else lib.AOTInductorModelContainerRun) = some r.run_func_.code ∧
  r.run_func_.symbol = (if run_single_threaded then "AOTInductorModelContainerRunSingleThreaded"
    else "AOTInductorModelContainerRun") ∧
  lib.AOTInductorModelContainerGetNumConstants = some r.get_num_constants_func_.code ∧
  r.get_num_constants_func_.symbol = "AOTInductorModelContainerGetNumConstants" ∧
  lib.AOTInductorModelContainerGetConstantName = some r.get_constant_name_func_.code ∧
  r.get_constant_name_func_.symbol = "AOTInductorModelContainerGetConstantName" ∧
  lib.AOTInductorModelContainerGetConstantOriginalFQN =
    some r.get_constant_original_fqn_func_.code ∧
  r.get_constant_original_fqn_func_.symbol = "AOTInductorModelContainerGetConstantOriginalFQN" ∧
  lib.AOTInductorModelContainerGetConstantDtype = some r.get_constant_dtype_func_.code ∧
  r.get_constant_dtype_func_.symbol = "AOTInductorModelContainerGetConstantDtype" ∧
  lib.AOTInductorModelContainerUpdateConstantBuffer =
    some r.update_constant_buffer_func_.code ∧
  r.update_constant_buffer_func_.symbol = "AOTInductorModelContainerUpdateConstantBuffer" ∧
  lib.AOTInductorModelContainerUpdateInactiveConstantBuffer =
    some r.update_inactive_constant_buffer_func_.code ∧
  r.update_inactive_constant_buffer_func_.symbol =
    "AOTInductorModelContainerUpdateInactiveConstantBuffer" ∧
  lib.AOTInductorModelContainerRunConstantFolding = some r.run_const_fold_func_.code ∧
  r.run_const_fold_func_.symbol = "AOTInductorModelContainerRunConstantFolding" ∧
  lib.AOTInductorModelContainerSwapConstantBuffer = some r.swap_constant_buffer_func_.code ∧
  r.swap_constant_buffer_func_.symbol = "AOTInductorModelContainerSwapConstantBuffer" ∧
  lib.AOTInductorModelContainerGetCallSpec = some r.get_call_spec_func_.code ∧
  r.get_call_spec_func_.symbol = "AOTInductorModelContainerGetCallSpec" ∧
  r.free_inactive_constant_buffer_func_ =
    TRY_LOAD_SYMBOL "AOTInductorModelContainerFreeInactiveConstantBuffer"
      lib.AOTInductorModelContainerFreeInactiveConstantBuffer


/-- The runner the constructor builds from the module of an artifact built from `desc`. -/
def specRunner (desc : ModelDesc T) (has_free run_single_threaded : Bool)
    (proxy_executor_handle_ : AOTIProxyExecutorHandle) :
    AOTIModelContainerRunner (Container T) Unit T :=
  { create_func_ := ⟨"AOTInductorModelContainerCreateWithDevice", Container.create desc⟩
    delete_func_ := ⟨"AOTInductorModelContainerDelete", Container.delete⟩
    get_num_outputs_func_ :=
      ⟨"AOTInductorModelContainerGetNumOutputs", Container.get_num_outputs desc⟩
    run_func_ :=
      ⟨if run_single_threaded then "AOTInductorModelContainerRunSingleThreaded"
        else "AOTInductorModelContainerRun", Container.run desc⟩
    get_num_constants_func_ :=
      ⟨"AOTInductorModelContainerGetNumConstants", Container.get_num_constants desc⟩
    get_constant_name_func_ :=
      ⟨"AOTInductorModelContainerGetConstantName", Container.get_constant_name desc⟩
    get_constant_original_fqn_func_ :=
      ⟨"AOTInductorModelContainerGetConstantOriginalFQN",
        Container.get_constant_original_fqn desc⟩
    get_constant_dtype_func_ :=
      ⟨"AOTInductorModelContainerGetConstantDtype", Container.get_constant_dtype desc⟩
    update_constant_buffer_func_ :=
      ⟨"AOTInductorModelContainerUpdateConstantBuffer", Container.update_constant_buffer desc⟩
    update_inactive_constant_buffer_func_ :=
      ⟨"AOTInductorModelContainerUpdateInactiveConstantBuffer",
        Container.update_inactive_constant_buffer desc⟩
    run_const_fold_func_ :=
      ⟨"AOTInductorModelContainerRunConstantFolding", Container.run_const_fold desc⟩
    swap_constant_buffer_func_ :=
      ⟨"AOTInductorModelContainerSwapConstantBuffer", Container.swap_constant_buffer⟩
    free_inactive_constant_buffer_func_ :=
      if has_free then
        some ⟨"AOTInductorModelContainerFreeInactiveConstantBuffer",
          Container.free_inactive_constant_buffer⟩
      else none
    get_call_spec_func_ := ⟨"AOTInductorModelContainerGetCallSpec", Container.get_call_spec desc⟩
    proxy_executor_handle_ := proxy_executor_handle_
    container_handle_ := () }

/-- Every call an operation makes through the table satisfies `S` on its symbol, and the
operation only ever appends to the trace. -/
def CallsOnly {α : Type} (S : String → Prop) (m : Op σ T α) : Prop :=
  ∀ w, ∃ calls : List (CallRecord T),
    (m w).2.trace = w.trace ++ calls ∧ ∀ c ∈ calls, S c.symbol

/-- Error propagation holds of an operation from every world. -/
def Checked {α : Type} (m : Op σ T α) : Prop :=
  ∀ w, Propagates w (m w)

/-- The symbol is not the swap entry point. -/
def notSwap (symbol : String) : Prop :=
  symbol ≠ "AOTInductorModelContainerSwapConstantBuffer"

/-- An invariant of the artifact-side memory is kept by an operation. -/
def Keeps {α : Type} (P : σ → Prop) (m : Op σ T α) : Prop :=
  ∀ w, P w.artifact → P (m w).2.artifact

/-- The sequence the double-buffering test uses to rotate new constants into service: write
them into the inactive slot, recompute the folded constants there when the artifact performs
constant folding, then swap. -/
def rotateConstants (r : AOTIModelContainerRunner σ C T) (folds : Bool)
    (const_map : TensorConstantMap T) (cuda_stream_handle : StreamHandle) : Op σ T Unit := do
  r.update_inactive_constant_buffer const_map
  if folds then
    r.run_const_fold true cuda_stream_handle
  r.swap_constant_buffer

/-- Writing into the inactive slot without swapping, with or without the constant-folding
run that may follow. -/
def writeInactive (r : AOTIModelContainerRunner σ C T) (fold_after : Bool)
    (const_map : TensorConstantMap T) (cuda_stream_handle : StreamHandle) : Op σ T Unit := do
  r.update_inactive_constant_buffer const_map
  if fold_after then
    r.run_const_fold true cuda_stream_handle

end Built

/-! ## A small artifact for concrete evaluation -/

section Example

/-- A model with the two constants of the test artifact over natural-number tensors:
one input, one output `w_pre * x + w_add`; folding caches the constants unchanged; a
rejected full update writes nothing. -/
def exampleDesc (use_runtime_constant_folding : Bool) : ModelDesc Nat :=
  { constants := [("L__self___w_pre", "w_pre", 6), ("L__self___w_add", "w_add", 6)]
    num_inputs := 1
    num_outputs := 1
    use_runtime_constant_folding := use_runtime_constant_folding
    burned_in := fun name =>
      if name = "L__self___w_pre" then some 2
      else if name = "L__self___w_add" then some 3 else none
    fold := fun k => k
    forward := fun k input_handles _ =>
      ((k.getD 0 none).getD 0) * ((input_handles.getD 0 none).getD 0) + ((k.getD 1 none).getD 0)
    in_spec := "in"
    out_spec := "out"
    written_on_reject := fun _ => [] }

/-- The world right after the example container was created. -/
def exampleWorld (use_runtime_constant_folding : Bool) : World (Container Nat) Nat :=
  { artifact := Container.initial (exampleDesc use_runtime_constant_folding), trace := [] }

/-- The module of the example artifact with the swap entry point stripped. -/
def exampleLibraryWithoutSwap : DynamicLibrary (Container Nat) Unit Nat :=
  { specLibrary (exampleDesc false) true with
    AOTInductorModelContainerSwapConstantBuffer := none }

/-- The runner constructed from the example artifact, optional symbol present. -/
def exampleRunner (use_runtime_constant_folding : Bool) :
    AOTIModelContainerRunner (Container Nat) Unit Nat :=
  specRunner (exampleDesc use_runtime_constant_folding) true false none

/-- A complete constant map for the example artifact. -/
def exampleFullMap : TensorConstantMap Nat :=
  [("L__self___w_pre", 4), ("L__self___w_add", 1)]

/-- A constant map that omits `L__self___w_add`, like the one of the update test. -/
def exampleMissingMap : TensorConstantMap Nat :=
  [("L__self___w_pre", 7)]

/-- The original value of `L__self___w_pre` alone, to write it back. -/
def exampleOriginalPreMap : TensorConstantMap Nat :=
  [("L__self___w_pre", 2)]

/-- The constant names of the example artifact, by index. -/
def exampleNames (i : Nat) : String :=
  if i = 0 then "L__self___w_pre" else "L__self___w_add"

/-- The original names of the constants of the example artifact, by index. -/
def exampleOriginals (i : Nat) : String :=
  if i = 0 then "w_pre" else "w_add"

/-- The dtypes of the constants of the example artifact, by index. -/
def exampleDtypes (_ : Nat) : Int := 6

/-- The runner constructed from the example artifact next to a sidecar file. -/
def exampleProxyRunner : AOTIModelContainerRunner (Container Nat) Unit Nat :=
  specRunner (exampleDesc false) true false (some ⟨"model.json", true⟩)

/-- The runner constructed from the example artifact with the single-threaded variant. -/
def exampleSingleThreadedRunner : AOTIModelContainerRunner (Container Nat) Unit Nat :=
  specRunner (exampleDesc false) true true none

/-- The example model in an artifact that writes the entries it is given before it checks
that the map is complete. -/
def examplePartialWriteDesc : ModelDesc Nat :=
  { exampleDesc false with written_on_reject := fun const_map => const_map }

/-- The module of the example artifact whose update-inactive entry point checks that the map
is complete, while the update entry point is asked not to. -/
def exampleValidatingLibrary : DynamicLibrary (Container Nat) Unit Nat :=
  { specLibrary (exampleDesc false) true with
    AOTInductorModelContainerUpdateInactiveConstantBuffer :=
      some (fun h const_map c =>
        Container.update_constant_buffer (exampleDesc false) h const_map true true c) }

/-- The runner the constructor builds from `exampleValidatingLibrary`. -/
def exampleValidatingRunner : AOTIModelContainerRunner (Container Nat) Unit Nat :=
  { specRunner (exampleDesc false) true false none with
    update_inactive_constant_buffer_func_ :=
      ⟨"AOTInductorModelContainerUpdateInactiveConstantBuffer", fun h const_map c =>
        Container.update_constant_buffer (exampleDesc false) h const_map true true c⟩ }

end Example

/-! ## Further notions used by the statements below -/

section Further

variable {σ C T : Type}

/-- Running on the slot selected by `use_inactive`: the active slot is read directly, the
inactive one has to be swapped into service first. -/
def runOnSlot [Inhabited T] (r : AOTIModelContainerRunner σ C T) (use_inactive : Bool)
    (inputs : List T) (stream_handle : StreamHandle) : Op σ T (List T) :=
  if use_inactive then
    Op.andThen r.swap_constant_buffer (fun _ => r.run inputs stream_handle)
  else r.run inputs stream_handle

/-- Every call an operation makes satisfies `P`, and the operation only appends to the
trace. -/
def TracesOnly {α : Type} (P : CallRecord T → Prop) (m : Op σ T α) : Prop :=
  ∀ w, ∃ calls : List (CallRecord T),
    (m w).2.trace = w.trace ++ calls ∧ ∀ c ∈ calls, P c

/-- The proxy-executor handle a call passed to the artifact, for the calls that pass one. -/
def CallRecord.proxyPassed (c : CallRecord T) : Option AOTIProxyExecutorHandle :=
  match c.args with
  | .run _ _ _ _ proxy_executor => some proxy_executor
  | .const_fold _ _ proxy_executor => some proxy_executor
  | _ => none

/-- The symbols a constructed runner can ever call: those resolved with `LOAD_SYMBOL` and
the optional one. -/
def resolvedSymbols (run_single_threaded : Bool) : List String :=
  mandatorySymbols run_single_threaded ++
    ["AOTInductorModelContainerFreeInactiveConstantBuffer"]

/-- The name of the run symbol selected by `run_single_threaded`. -/
def selectedRunSymbol (run_single_threaded : Bool) : String :=
  if run_single_threaded then "AOTInductorModelContainerRunSingleThreaded"
  else "AOTInductorModelContainerRun"

/-- The name of the run symbol that was not selected. -/
def otherRunSymbol (run_single_threaded : Bool) : String :=
  selectedRunSymbol (!run_single_threaded)

/-- The index at which the file name starts in a path: right after the last `/`. -/
def fileNameStart (s : List Char) : Nat :=
  match find_last_of s '/' with
  | some i => i + 1
  | none => 0

/-- The sidecar path in the words of the specification: the file extension, which is the
suffix after the last `.` of the file name, is replaced by `json`; a file name without a
`.` has no extension to replace and only gets `.json` appended. -/
def sidecarPathBySpec (path : String) : String :=
  let s := path.toList
  let dir := s.take (fileNameStart s)
  let file := s.drop (fileNameStart s)
  String.mk (dir ++ substr0 file (find_last_of file '.')) ++ ".json"

/-- What a call of a constructed runner looks like: its symbol is one the constructor
resolved, and a proxy-executor handle, when one is passed, is the one of the runner. -/
def WellFormedCall (r : AOTIModelContainerRunner σ C T) (single : Bool)
    (c : CallRecord T) : Prop :=
  c.symbol ∈ resolvedSymbols single ∧
    ∀ p, c.proxyPassed = some p → p = r.proxy_executor_handle_

end Further

/-! ## The Python-facing entry -/

section Pybind

variable {σ T : Type}

/-- An item of a Python list as the binding sees it: a wrapped tensor or anything else. -/
inductive PyObject (T : Type) where
  | tensor (t : T)
  | other (repr : String)
  deriving DecidableEq, Repr

/-- Exceptions that leave the Python-facing entry. -/
inductive PyError where
  /-- Raised by `py::cast<at::Tensor>` on an item that is not a tensor. -/
  | cast_error
  /-- An exception of the loader, passed through. -/
  | runtime (e : RunnerError)
  deriving DecidableEq, Repr

/-- The conversion `py::cast<at::Tensor>(item)`. -/
def PyObject.cast : PyObject T → Except PyError T
  | .tensor t => .ok t
  | .other _ => .error .cast_error

/-- The loop filling `input_tensors`: the items are cast in order, the first failure
throws. -/
def castInputs : List (PyObject T) → Except PyError (List T)
  | [] => .ok []
  | item :: rest =>
    match item.cast with
    | .error e => .error e
    | .ok t =>
      match castInputs rest with
      | .error e => .error e
      | .ok ts => .ok (t :: ts)

/-- The method `AOTIModelPackageLoaderPybind::boxed_run`.  The base-class
`AOTIModelPackageLoader::boxed_run` it forwards to is not in the sources at hand and is
taken as the parameter `loader_boxed_run`.  The second component is the caller's Python
list after the call. -/
def AOTIModelPackageLoaderPybind.boxed_run
    (loader_boxed_run : List T → StreamHandle → Op σ T (List T))
    (inputs : List (PyObject T)) (stream_handle : StreamHandle) (w : World σ T) :
    (Except PyError (List (PyObject T)) × World σ T) × List (PyObject T) :=
  match castInputs inputs with
  | .error e => ((.error e, w), inputs)
  | .ok input_tensors =>
    -- Explicitly clear the passed-in Python list
    let inputs : List (PyObject T) := []
    match loader_boxed_run input_tensors stream_handle w with
    | (.error e, w') => ((.error (.runtime e), w'), inputs)
    | (.ok result_tensors, w') => ((.ok (result_tensors.map PyObject.tensor), w'), inputs)

end Pybind

/-! ## Basic facts about operations -/

section Lemmas

variable {σ C T α β : Type}

@[simp] theorem Op.bind_eq (m : Op σ T α) (f : α → Op σ T β) : (m >>= f) = Op.andThen m f := rfl

@[simp] theorem Op.pure_eq (a : α) : (pure a : Op σ T α) = Op.ret a := rfl

/-- What the constructor does once the module is open: either a symbol it resolves with
`LOAD_SYMBOL` is missing and it throws without touching the world, or all of them are
present and the outcome is decided by the status of the create call. -/
theorem ctor_cases (host : Host σ C T) (lib : DynamicLibrary σ C T) (path : String) (n : Nat)
    (dev cubin : String) (single : Bool) (w : World σ T) (hopen : host.dlopen path = some lib) :
    (∃ name ∈ mandatorySymbols single, lib.exports name = false ∧
      AOTIModelContainerRunner.ctor host path n dev cubin single w =
        (.error (.DynamicLibraryError name), w)) ∨
    ((∀ name ∈ mandatorySymbols single, lib.exports name = true) ∧
      ∃ create, lib.AOTInductorModelContainerCreateWithDevice = some create ∧
        ∃ res, res = callEntry "AOTInductorModelContainerCreateWithDevice"
            (Args.create n dev (if cubin.isEmpty then none else some cubin))
            (create n dev (if cubin.isEmpty then none else some cubin)) w ∧
          ((res.1 ≠ 0 ∧ AOTIModelContainerRunner.ctor host path n dev cubin single w =
              (.error (.api_call_failed res.1 "AOTInductorModelContainerCreateWithDevice"),
                res.2.2)) ∨
            (res.1 = 0 ∧ ∃ r, AOTIModelContainerRunner.ctor host path n dev cubin single w =
              (.ok r, res.2.2) ∧ ResolvedFrom r lib single ∧ r.container_handle_ = res.2.1 ∧
              r.proxy_executor_handle_ =
                (if host.file_exists (json_filename path) then
                  some ⟨json_filename path, dev == "cpu"⟩ else none)))) := by
  unfold AOTIModelContainerRunner.ctor
  simp only [Op.bind_eq, Op.pure_eq, hopen]
  rcases lib with ⟨c1, c2, c3, c4, c5, c6, c7, c8, c9, c10, c11, c12, c13, c14, c15⟩
  cases single
  · show _ ∨ _
    cases c1 with
    | none => exact Or.inl ⟨"AOTInductorModelContainerCreateWithDevice", by simp [mandatorySymbols], rfl, rfl⟩
    | some c1 =>
    cases c2 with
    | none => exact Or.inl ⟨"AOTInductorModelContainerDelete", by simp [mandatorySymbols], rfl, rfl⟩
    | some c2 =>
    cases c3 with
    | none => exact Or.inl ⟨"AOTInductorModelContainerGetNumOutputs", by simp [mandatorySymbols], rfl, rfl⟩
    | some c3 =>
    cases c4 with
    | none => exact Or.inl ⟨"AOTInductorModelContainerRun", by simp [mandatorySymbols], rfl, rfl⟩
    | some c4 =>
    cases c6 with
    | none => exact Or.inl ⟨"AOTInductorModelContainerGetNumConstants", by simp [mandatorySymbols], rfl, rfl⟩
    | some c6 =>
    cases c7 with
    | none => exact Or.inl ⟨"AOTInductorModelContainerGetConstantName", by simp [mandatorySymbols], rfl, rfl⟩
    | some c7 =>
    cases c8 with
    | none => exact Or.inl ⟨"AOTInductorModelContainerGetConstantOriginalFQN", by simp [mandatorySymbols], rfl, rfl⟩
    | some c8 =>
    cases c9 with
    | none => exact Or.inl ⟨"AOTInductorModelContainerGetConstantDtype", by simp [mandatorySymbols], rfl, rfl⟩
    | some c9 =>
    cases c10 with
    | none => exact Or.inl ⟨"AOTInductorModelContainerUpdateConstantBuffer", by simp [mandatorySymbols], rfl, rfl⟩
    | some c10 =>
    cases c11 with
    | none => exact Or.inl ⟨"AOTInductorModelContainerUpdateInactiveConstantBuffer", by simp [mandatorySymbols], rfl, rfl⟩
    | some c11 =>
    cases c12 with
    | none => exact Or.inl ⟨"AOTInductorModelContainerRunConstantFolding", by simp [mandatorySymbols], rfl, rfl⟩
    | some c12 =>
    cases c13 with
    | none => exact Or.inl ⟨"AOTInductorModelContainerSwapConstantBuffer", by simp [mandatorySymbols], rfl, rfl⟩
    | some c13 =>
    cases c14 with
    | none => exact Or.inl ⟨"AOTInductorModelContainerGetCallSpec", by simp [mandatorySymbols], rfl, rfl⟩
    | some c14 =>
    refine Or.inr ⟨?_, c1, rfl, _, rfl, ?_⟩
    · intro name h
      simp only [mandatorySymbols, List.mem_cons, List.mem_singleton, List.not_mem_nil,
        or_false, Bool.false_eq_true, if_false, if_true] at h
      rcases h with h | h | h | h | h | h | h | h | h | h | h | h | h <;> subst h <;> rfl
    · simp only [Op.andThen, Op.ofExcept, LOAD_SYMBOL, AOTI_RUNTIME_ERROR_CODE_CHECK, callEntry,
        AOTI_RUNTIME_SUCCESS, Op.ret, Bool.false_eq_true, if_false, if_true]
      by_cases hst : (c1 n dev (if cubin.isEmpty then none else some cubin) w.artifact).1 = 0
      · refine Or.inr ⟨hst, ?_⟩
        simp only [hst, ne_eq, not_true_eq_false, if_false]
        exact ⟨_, rfl, by simp [ResolvedFrom, TRY_LOAD_SYMBOL, LOAD_SYMBOL], rfl, rfl⟩
      · refine Or.inl ⟨hst, ?_⟩
        simp only [hst, ne_eq, not_false_eq_true, if_true]
  · show _ ∨ _
    cases c1 with
    | none => exact Or.inl ⟨"AOTInductorModelContainerCreateWithDevice", by simp [mandatorySymbols], rfl, rfl⟩
    | some c1 =>
    cases c2 with
    | none => exact Or.inl ⟨"AOTInductorModelContainerDelete", by simp [mandatorySymbols], rfl, rfl⟩
    | some c2 =>
    cases c3 with
    | none => exact Or.inl ⟨"AOTInductorModelContainerGetNumOutputs", by simp [mandatorySymbols], rfl, rfl⟩
    | some c3 =>
    cases c5 with
    | none => exact Or.inl ⟨"AOTInductorModelContainerRunSingleThreaded", by simp [mandatorySymbols], rfl, rfl⟩
    | some c5 =>
    cases c6 with
    | none => exact Or.inl ⟨"AOTInductorModelContainerGetNumConstants", by simp [mandatorySymbols], rfl, rfl⟩
    | some c6 =>
    cases c7 with
    | none => exact Or.inl ⟨"AOTInductorModelContainerGetConstantName", by simp [mandatorySymbols], rfl, rfl⟩
    | some c7 =>
    cases c8 with
    | none => exact Or.inl ⟨"AOTInductorModelContainerGetConstantOriginalFQN", by simp [mandatorySymbols], rfl, rfl⟩
    | some c8 =>
    cases c9 with
    | none => exact Or.inl ⟨"AOTInductorModelContainerGetConstantDtype", by simp [mandatorySymbols], rfl, rfl⟩
    | some c9 =>
    cases c10 with
    | none => exact Or.inl ⟨"AOTInductorModelContainerUpdateConstantBuffer", by simp [mandatorySymbols], rfl, rfl⟩
    | some c10 =>
    cases c11 with
    | none => exact Or.inl ⟨"AOTInductorModelContainerUpdateInactiveConstantBuffer", by simp [mandatorySymbols], rfl, rfl⟩
    | some c11 =>
    cases c12 with
    | none => exact Or.inl ⟨"AOTInductorModelContainerRunConstantFolding", by simp [mandatorySymbols], rfl, rfl⟩
    | some c12 =>
    cases c13 with
    | none => exact Or.inl ⟨"AOTInductorModelContainerSwapConstantBuffer", by simp [mandatorySymbols], rfl, rfl⟩
    | some c13 =>
    cases c14 with
    | none => exact Or.inl ⟨"AOTInductorModelContainerGetCallSpec", by simp [mandatorySymbols], rfl, rfl⟩
    | some c14 =>
    refine Or.inr ⟨?_, c1, rfl, _, rfl, ?_⟩
    · intro name h
      simp only [mandatorySymbols, List.mem_cons, List.mem_singleton, List.not_mem_nil,
        or_false, if_true] at h
      rcases h with h | h | h | h | h | h | h | h | h | h | h | h | h <;> subst h <;> rfl
    · simp only [Op.andThen, Op.ofExcept, LOAD_SYMBOL, AOTI_RUNTIME_ERROR_CODE_CHECK, callEntry,
        AOTI_RUNTIME_SUCCESS, Op.ret, Bool.false_eq_true, if_false, if_true]
      by_cases hst : (c1 n dev (if cubin.isEmpty then none else some cubin) w.artifact).1 = 0
      · refine Or.inr ⟨hst, ?_⟩
        simp only [hst, ne_eq, not_true_eq_false, if_false]
        exact ⟨_, rfl, by simp [ResolvedFrom, TRY_LOAD_SYMBOL, LOAD_SYMBOL], rfl, rfl⟩
      · refine Or.inl ⟨hst, ?_⟩
        simp only [hst, ne_eq, not_false_eq_true, if_true]

/-- A runner the constructor returned holds exactly the entry points of the module. -/
theorem ctor_ok_resolved {host : Host σ C T} {lib : DynamicLibrary σ C T} {path : String}
    {n : Nat} {dev cubin : String} {single : Bool} {w w' : World σ T}
    {r : AOTIModelContainerRunner σ C T} (hopen : host.dlopen path = some lib)
    (hctor : AOTIModelContainerRunner.ctor host path n dev cubin single w = (.ok r, w')) :
    ResolvedFrom r lib single := by
  rcases ctor_cases host lib path n dev cubin single w hopen with
    ⟨name, _, _, h⟩ | ⟨_, create, _, res, _, ⟨_, h⟩ | ⟨_, r', h, hres, _⟩⟩
  · rw [h] at hctor; cases hctor
  · rw [h] at hctor; cases hctor
  · rw [h] at hctor; cases hctor; exact hres

/-- On a host that opens the module of a modelled artifact, construction succeeds and
yields `specRunner`. -/
theorem ctor_specLibrary {T : Type} (desc : ModelDesc T) (has_free single : Bool)
    (files : List String) (path : String) (n : Nat) (dev cubin : String)
    (w : World (Container T) T) :
    AOTIModelContainerRunner.ctor (hostOf (specLibrary desc has_free) files) path n dev cubin
        single w =
      (.ok (specRunner desc has_free single
          (if files.contains (json_filename path) then some ⟨json_filename path, dev == "cpu"⟩
            else none)),
        { artifact := Container.initial desc,
          trace := w.trace ++ [⟨"AOTInductorModelContainerCreateWithDevice",
            Args.create n dev (if cubin.isEmpty then none else some cubin), 0⟩] }) := by
  cases single <;> cases has_free <;> rfl

end Lemmas

/-! ## The optional capability and construction -/

section Claims

variable {σ C T : Type}

/-- C1: a runner constructed from a module that does not export the optional
free-inactive-constant-buffer symbol throws from `free_inactive_constant_buffer`, with the
message telling the caller to rebuild the artifact; the world it returns is the world it was
given, so no entry point was invoked and the container (both slots, the active designation)
is unchanged. -/
theorem free_inactive_constant_buffer_without_symbol
    (host : Host σ C T) (lib : DynamicLibrary σ C T) (model_so_path : String)
    (num_models : Nat) (device_str cubin_dir : String) (run_single_threaded : Bool)
    (w0 w0' : World σ T) (r : AOTIModelContainerRunner σ C T)
    (hopen : host.dlopen model_so_path = some lib)
    (hfree : lib.exports "AOTInductorModelContainerFreeInactiveConstantBuffer" = false)
    (hctor : AOTIModelContainerRunner.ctor host model_so_path num_models device_str cubin_dir
      run_single_threaded w0 = (.ok r, w0'))
    (w : World σ T) :
    r.free_inactive_constant_buffer w =
      (.error (.runtime_error
        "No free_inactive_constant_buffer in .so! Consider rebuild .so with latest package."),
        w) := by
  have hres := ctor_ok_resolved hopen hctor
  have hnone : lib.AOTInductorModelContainerFreeInactiveConstantBuffer = none := by
    have : lib.AOTInductorModelContainerFreeInactiveConstantBuffer.isSome = false := hfree
    cases h : lib.AOTInductorModelContainerFreeInactiveConstantBuffer with
    | none => rfl
    | some f => rw [h] at this; cases this
  have hptr : r.free_inactive_constant_buffer_func_ = none := by
    have := hres.2.2.2.2.2.2.2.2.2.2.2.2.2.2.2.2.2.2.2.2.2.2.2.2.2.2
    rw [this, hnone]; rfl
  unfold AOTIModelContainerRunner.free_inactive_constant_buffer
  rw [hptr]; rfl

/-- Witness for C1: the example artifact built without the optional symbol. -/
theorem free_inactive_constant_buffer_without_symbol_witness :
    (specRunner (exampleDesc false) false false none).free_inactive_constant_buffer
        (exampleWorld false) =
      (.error (.runtime_error
        "No free_inactive_constant_buffer in .so! Consider rebuild .so with latest package."),
        exampleWorld false) :=
  free_inactive_constant_buffer_without_symbol
    (hostOf (specLibrary (exampleDesc false) false) []) (specLibrary (exampleDesc false) false)
    "model.so" 1 "cpu" "" false (exampleWorld false) _ _ rfl rfl
    (ctor_specLibrary (exampleDesc false) false false [] "model.so" 1 "cpu" ""
      (exampleWorld false))
    (exampleWorld false)

/-- C2: when the module lacks one of the symbols the constructor resolves with
`LOAD_SYMBOL`, construction throws a `DynamicLibraryError` naming a missing symbol, no
runner is produced, and the world is the one it was given: no entry point, in particular not
create, has been invoked. -/
theorem ctor_fails_before_any_call
    (host : Host σ C T) (lib : DynamicLibrary σ C T) (model_so_path : String)
    (num_models : Nat) (device_str cubin_dir : String) (run_single_threaded : Bool)
    (w : World σ T)
    (hopen : host.dlopen model_so_path = some lib)
    (hmissing : ∃ name ∈ mandatorySymbols run_single_threaded, lib.exports name = false) :
    ∃ name ∈ mandatorySymbols run_single_threaded, lib.exports name = false ∧
      AOTIModelContainerRunner.ctor host model_so_path num_models device_str cubin_dir
        run_single_threaded w = (.error (.DynamicLibraryError name), w) := by
  rcases ctor_cases host lib model_so_path num_models device_str cubin_dir
    run_single_threaded w hopen with h | ⟨hall, _⟩
  · exact h
  · obtain ⟨name, hmem, hfalse⟩ := hmissing
    rw [hall name hmem] at hfalse
    cases hfalse

/-- Witness for C2: the example module with the swap entry point stripped. -/
theorem ctor_fails_before_any_call_witness :
    ∃ name ∈ mandatorySymbols false, exampleLibraryWithoutSwap.exports name = false ∧
      AOTIModelContainerRunner.ctor (hostOf exampleLibraryWithoutSwap []) "model.so" 1 "cpu" ""
        false (exampleWorld false) = (.error (.DynamicLibraryError name), exampleWorld false) :=
  ctor_fails_before_any_call (hostOf exampleLibraryWithoutSwap []) exampleLibraryWithoutSwap
    "model.so" 1 "cpu" "" false (exampleWorld false) rfl
    ⟨"AOTInductorModelContainerSwapConstantBuffer", by simp [mandatorySymbols], rfl⟩

end Claims

/-! ## Error propagation -/

section Propagation

variable {σ C T α β : Type}

/-- A plain return makes no call. -/
theorem checked_ret (a : α) : Checked (Op.ret a : Op σ T α) := by
  intro w
  exact ⟨[], by simp [Op.ret], by simp [Op.ret]⟩

/-- A checked call makes one call and throws exactly when its status is non-zero. -/
theorem checked_check (symbol : String) (args : Args T) (body : σ → Int × α × σ) :
    Checked (AOTI_RUNTIME_ERROR_CODE_CHECK symbol args body) := by
  intro w
  refine ⟨[⟨symbol, args, (body w.artifact).1⟩], ?_, ?_⟩
  · unfold AOTI_RUNTIME_ERROR_CODE_CHECK callEntry
    by_cases h : (body w.artifact).1 = AOTI_RUNTIME_SUCCESS <;> simp [h]
  · unfold AOTI_RUNTIME_ERROR_CODE_CHECK callEntry
    by_cases h : (body w.artifact).1 = AOTI_RUNTIME_SUCCESS
    · simp [h]; rfl
    · simp only [ne_eq, h, not_false_eq_true, if_true]
      exact ⟨[], _, rfl, by simp, h, rfl⟩

/-- Error propagation composes along sequencing. -/
theorem checked_andThen {m : Op σ T α} {f : α → Op σ T β} (hm : Checked m)
    (hf : ∀ a, Checked (f a)) : Checked (Op.andThen m f) := by
  intro w
  obtain ⟨calls, htr, hres⟩ := hm w
  unfold Op.andThen
  rcases h : m w with ⟨res, w1⟩
  rw [h] at htr hres
  cases res with
  | error e => exact ⟨calls, htr, hres⟩
  | ok a =>
    obtain ⟨calls2, htr2, hres2⟩ := hf a w1
    simp only at htr hres ⊢
    refine ⟨calls ++ calls2, by rw [htr2, htr, List.append_assoc], ?_⟩
    rcases h2 : f a w1 with ⟨res2, w2⟩
    rw [h2] at hres2
    cases res2 with
    | ok b =>
      intro c hc
      rcases List.mem_append.mp hc with hc | hc
      · exact hres c hc
      · exact hres2 c hc
    | error e =>
      obtain ⟨pre, c, hcalls, hpre, hc, he⟩ := hres2
      refine ⟨calls ++ pre, c, by rw [hcalls, List.append_assoc], ?_, hc, he⟩
      intro p hp
      rcases List.mem_append.mp hp with hp | hp
      · exact hres p hp
      · exact hpre p hp

/-- Error propagation holds of a loop whose body has it. -/
theorem checked_forLoop {body : Nat → β → Op σ T β} (hbody : ∀ i b, Checked (body i b))
    (idxs : List Nat) (b : β) : Checked (forLoop body idxs b) := by
  induction idxs generalizing b with
  | nil => exact checked_ret b
  | cons i rest ih => exact checked_andThen (hbody i b) ih

/-- Error propagation is preserved by mapping the returned value. -/
theorem checked_mapResult {m : Op σ T α} (f : α → β) (hm : Checked m) :
    Checked (Op.mapResult f m) :=
  checked_andThen hm (fun a => checked_ret (f a))

/-- Error propagation holds of `run_impl`. -/
theorem checked_run_impl [Inhabited T] (r : AOTIModelContainerRunner σ C T)
    (input_handles : List (AtenTensorHandle T)) (stream_handle : StreamHandle) :
    Checked (r.run_impl input_handles stream_handle) :=
  checked_andThen (checked_check _ _ _) (fun _ =>
    checked_andThen (checked_check _ _ _) (fun _ => checked_ret _))

/-- Error propagation holds of every operation that reaches the artifact. -/
theorem checked_step [Inhabited T] (r : AOTIModelContainerRunner σ C T) (op : Operation T)
    (hfree : op = .free_inactive_constant_buffer →
      r.free_inactive_constant_buffer_func_.isSome = true) :
    Checked (r.step op) := by
  cases op with
  | run inputs stream_handle => exact checked_mapResult _ (checked_run_impl r _ _)
  | boxed_run inputs stream_handle => exact checked_mapResult _ (checked_run_impl r _ _)
  | getConstantNamesToOriginalFQNs =>
    exact checked_mapResult _ (checked_andThen (checked_check _ _ _) (fun _ =>
      checked_forLoop (fun _ _ => checked_andThen (checked_check _ _ _) (fun _ =>
        checked_andThen (checked_check _ _ _) (fun _ => checked_ret _))) _ _))
  | getConstantNamesToDtypes =>
    exact checked_mapResult _ (checked_andThen (checked_check _ _ _) (fun _ =>
      checked_forLoop (fun _ _ => checked_andThen (checked_check _ _ _) (fun _ =>
        checked_andThen (checked_check _ _ _) (fun _ => checked_ret _))) _ _))
  | update_constant_buffer m u k => exact checked_mapResult _ (checked_check _ _ _)
  | update_constant_buffer_tensor_map m u k => exact checked_mapResult _ (checked_check _ _ _)
  | update_inactive_constant_buffer m => exact checked_mapResult _ (checked_check _ _ _)
  | run_const_fold u s => exact checked_mapResult _ (checked_check _ _ _)
  | swap_constant_buffer => exact checked_mapResult _ (checked_check _ _ _)
  | free_inactive_constant_buffer =>
    have h := hfree rfl
    refine checked_mapResult _ ?_
    unfold AOTIModelContainerRunner.free_inactive_constant_buffer
    cases hf : r.free_inactive_constant_buffer_func_ with
    | none => rw [hf] at h; cases h
    | some f => exact checked_check _ _ _
  | get_call_spec =>
    exact checked_mapResult _ (checked_andThen (checked_check _ _ _) (fun _ => checked_ret _))

end Propagation

/-! ## Running -/

section RunClaims
variable {σ C T α β : Type}

/-- The calls added are what was appended to the trace. -/
theorem newCalls_append (w w' : World σ T) (calls : List (CallRecord T))
    (h : w'.trace = w.trace ++ calls) : newCalls w w' = calls := by
  simp [newCalls, h]

/-- Stealing from the output array after the callee stored `written` into it. -/
theorem alloc_storeOutputs [Inhabited T] (n : Nat) (written : List (AtenTensorHandle T)) :
    alloc_tensors_by_stealing_from_handles
        (storeOutputs (List.replicate n none) written)
        (storeOutputs (List.replicate n none) written).length =
      (List.range n).map (fun i => (written.getD i none).getD default) := by
  unfold alloc_tensors_by_stealing_from_handles storeOutputs
  rw [List.take_length]
  apply List.ext_getElem?
  intro i
  simp only [List.getElem?_map, List.length_replicate, List.drop_replicate]
  by_cases hi : i < n
  · rw [List.getElem?_range hi]
    by_cases hw : i < written.length
    · rw [List.getElem?_append_left (by simp; omega)]
      simp [List.getElem?_take, hi, hw, List.getD_eq_getElem?_getD]
    · rw [List.getElem?_append_right (by simp; omega)]
      have hnone : written[i]? = none := List.getElem?_eq_none (by omega)
      have hidx : i - min n written.length < n - written.length := by
        rw [Nat.min_eq_right (by omega)]; omega
      simp [List.getD_eq_getElem?_getD, hnone, List.getElem?_replicate, hidx]
  · rw [List.getElem?_eq_none (by simp; omega), List.getElem?_eq_none (by simp; omega)]
    rfl

/-- C4: `run` returns normally with `outs` exactly when get-num-outputs reported some count
`n` with status zero and the run entry point, called once with one handle per input in the
caller's order, `n_in` the number of inputs (whatever it is) and `n_out = n`, returned status
zero; these two calls are all it appended to the trace, and `outs` are the `n` tensors behind
the handles the callee stored, in the order it stored them. -/
theorem run_success_iff [Inhabited T] (r : AOTIModelContainerRunner σ C T) (inputs : List T)
    (stream_handle : StreamHandle) (w w' : World σ T) (outs : List T) :
    r.run inputs stream_handle w = (.ok outs, w') ↔
      ∃ (n : Nat) (written : List (AtenTensorHandle T)) (s1 : σ),
        r.get_num_outputs_func_.code r.container_handle_ w.artifact = (0, n, s1) ∧
        r.run_func_.code r.container_handle_ (inputs.map some) inputs.length n stream_handle
          r.proxy_executor_handle_ s1 = (0, written, w'.artifact) ∧
        w'.trace = w.trace ++
          [⟨r.get_num_outputs_func_.symbol, Args.handle, 0⟩,
           ⟨r.run_func_.symbol,
            Args.run (inputs.map some) inputs.length n stream_handle r.proxy_executor_handle_,
            0⟩] ∧
        outs.length = n ∧
        outs = (List.range n).map (fun i => (written.getD i none).getD default) := by
  unfold AOTIModelContainerRunner.run AOTIModelContainerRunner.run_impl
  simp only [Op.bind_eq, Op.pure_eq, Op.andThen, AOTI_RUNTIME_ERROR_CODE_CHECK, callEntry,
    AOTI_RUNTIME_SUCCESS, Op.ret, unsafe_alloc_new_handles_from_tensors, alloc_storeOutputs,
    List.length_replicate, List.length_map]
  rcases h1 : r.get_num_outputs_func_.code r.container_handle_ w.artifact with ⟨st1, n, s1⟩
  by_cases hst1 : st1 = 0
  · subst hst1
    simp only [ne_eq, not_true_eq_false, if_false]
    rcases h2 : r.run_func_.code r.container_handle_ (List.map some inputs) inputs.length n
      stream_handle r.proxy_executor_handle_ s1 with ⟨st2, written, s2⟩
    by_cases hst2 : st2 = 0
    · subst hst2
      simp only [not_true_eq_false, if_false]
      constructor
      · intro h
        injection h with hout hw
        injection hout with hout
        subst hw hout
        exact ⟨n, written, s1, rfl, h2, by simp, by simp, rfl⟩
      · rintro ⟨n', written', s1', h1', h2', htr, -, hout⟩
        injection h1' with _ h1'
        injection h1' with hn hs
        subst hn hs
        rw [h2] at h2'
        injection h2' with _ h2'
        injection h2' with hwr hs2
        subst hwr
        rcases w' with ⟨a', t'⟩
        simp only at hs2 htr
        subst hs2 htr hout
        simp
    · simp only [hst2, not_false_eq_true, if_true]
      constructor
      · intro h; injection h with h _; cases h
      · rintro ⟨n', written', s1', h1', h2', -⟩
        injection h1' with _ h1'
        injection h1' with hn hs
        subst hn hs
        rw [h2] at h2'
        injection h2' with h0 _
        exact absurd h0 hst2
  · simp only [ne_eq, hst1, not_false_eq_true, if_true]
    constructor
    · intro h; injection h with h _; cases h
    · rintro ⟨n', written', s1', h1', -⟩
      injection h1' with h0 _
      exact absurd h0 hst1

/-- C3: every operation that reaches the artifact propagates status codes: it appends the
calls it made to the trace; it throws if and only if one of those calls returned a non-zero
status; when it throws, the failing call is the last one made (all earlier ones returned
zero, nothing is called after it, no result is returned) and the exception carries the
return code and the name of the failing entry point.  For `free_inactive_constant_buffer`
this is under the assumption that the symbol is present. -/
theorem status_code_propagation [Inhabited T] (r : AOTIModelContainerRunner σ C T)
    (op : Operation T) (w : World σ T)
    (hfree : op = .free_inactive_constant_buffer →
      r.free_inactive_constant_buffer_func_.isSome = true) :
    Propagates w (r.step op w) ∧
      ((∃ e, (r.step op w).1 = .error e) ↔
        ∃ c ∈ newCalls w (r.step op w).2, c.status ≠ 0) := by
  have h := checked_step r op hfree w
  refine ⟨h, ?_⟩
  obtain ⟨calls, htr, hres⟩ := h
  rw [newCalls_append _ _ _ htr]
  cases hr : (r.step op w).1 with
  | ok a =>
    rw [hr] at hres
    constructor
    · rintro ⟨e, he⟩; cases he
    · rintro ⟨c, hc, hne⟩; exact absurd (hres c hc) hne
  | error e =>
    rw [hr] at hres
    obtain ⟨pre, c, hc, _, hne, _⟩ := hres
    constructor
    · intro _; exact ⟨c, by simp [hc], hne⟩
    · intro _; exact ⟨e, rfl⟩

/-- Witness for C3: freeing the inactive buffer of the example artifact, symbol present. -/
theorem status_code_propagation_witness :
    Propagates (exampleWorld false)
        ((specRunner (exampleDesc false) true false none).step .free_inactive_constant_buffer
          (exampleWorld false)) ∧
      ((∃ e, ((specRunner (exampleDesc false) true false none).step
          .free_inactive_constant_buffer (exampleWorld false)).1 = .error e) ↔
        ∃ c ∈ newCalls (exampleWorld false)
          ((specRunner (exampleDesc false) true false none).step
            .free_inactive_constant_buffer (exampleWorld false)).2, c.status ≠ 0) :=
  status_code_propagation (specRunner (exampleDesc false) true false none)
    .free_inactive_constant_buffer (exampleWorld false) (fun _ => rfl)

end RunClaims

/-! ## Double buffering on the modelled container -/

section SpecRunner

variable {T : Type}

/-- Reading back a list of freshly stored handles gives the tensors behind them. -/
theorem range_map_getD_some [Inhabited T] (l : List T) :
    (List.range l.length).map (fun i => ((l.map some).getD i none).getD default) = l := by
  apply List.ext_getElem?
  intro i
  by_cases hi : i < l.length
  · simp [List.getElem?_range hi, List.getD_eq_getElem?_getD, List.getElem?_eq_getElem hi]
  · rw [List.getElem?_eq_none (by simp; omega), List.getElem?_eq_none (by omega)]

/-- The model produces as many outputs as it reports. -/
theorem Container.outputs_length (desc : ModelDesc T) (k : List (Option T))
    (h : List (AtenTensorHandle T)) : (Container.outputs desc k h).length = desc.num_outputs := by
  simp [Container.outputs]

/-- What `run` returns on a modelled artifact: the outputs computed from the constants
served by the active slot, provided the input count is the expected one. -/
theorem specRunner_run_result [Inhabited T] (desc : ModelDesc T) (has_free single : Bool)
    (proxy : AOTIProxyExecutorHandle) (inputs : List T) (stream_handle : StreamHandle)
    (w : World (Container T) T) :
    ((specRunner desc has_free single proxy).run inputs stream_handle w).1 =
      if inputs.length = desc.num_inputs then
        .ok (Container.outputs desc
          (Container.served desc (w.artifact.slot w.artifact.active))
          (unsafe_alloc_new_handles_from_tensors inputs))
      else .error (.api_call_failed 1
        (if single then "AOTInductorModelContainerRunSingleThreaded"
          else "AOTInductorModelContainerRun")) := by
  unfold AOTIModelContainerRunner.run AOTIModelContainerRunner.run_impl
  simp only [Op.bind_eq, Op.pure_eq, Op.andThen, AOTI_RUNTIME_ERROR_CODE_CHECK, callEntry,
    AOTI_RUNTIME_SUCCESS, Op.ret, alloc_storeOutputs, specRunner, Container.get_num_outputs,
    Container.run, unsafe_alloc_new_handles_from_tensors, List.length_map,
    List.length_replicate]
  by_cases h : inputs.length = desc.num_inputs
  · simp only [h, if_true, ne_eq, not_true_eq_false, if_false]
    have := range_map_getD_some (Container.outputs desc
      (Container.served desc (w.artifact.slot w.artifact.active)) (List.map some inputs))
    rw [Container.outputs_length] at this
    rw [this]
  · simp [h]


/-- What `swap_constant_buffer` does on a modelled artifact. -/
theorem specRunner_swap (desc : ModelDesc T) (has_free single : Bool)
    (proxy : AOTIProxyExecutorHandle) (w : World (Container T) T) :
    (specRunner desc has_free single proxy).swap_constant_buffer w =
      (.ok (), { artifact := { w.artifact with active := !w.artifact.active },
                 trace := w.trace ++
                   [⟨"AOTInductorModelContainerSwapConstantBuffer", Args.handle, 0⟩] }) := rfl

/-- What `update_inactive_constant_buffer` does on a modelled artifact. -/
theorem specRunner_update_inactive (desc : ModelDesc T) (has_free single : Bool)
    (proxy : AOTIProxyExecutorHandle) (m : TensorConstantMap T) (w : World (Container T) T) :
    (specRunner desc has_free single proxy).update_inactive_constant_buffer m w =
      (.ok (), { artifact := w.artifact.setSlot (w.artifact.target true)
                   { w.artifact.slot (w.artifact.target true) with
                     raw := Container.overlay (w.artifact.slot (w.artifact.target true)).raw m },
                 trace := w.trace ++
                   [⟨"AOTInductorModelContainerUpdateInactiveConstantBuffer",
                     Args.update_inactive m, 0⟩] }) := rfl

/-- What `run_const_fold` does on a modelled artifact. -/
theorem specRunner_run_const_fold (desc : ModelDesc T) (has_free single : Bool)
    (proxy : AOTIProxyExecutorHandle) (use_inactive : Bool) (s : StreamHandle)
    (w : World (Container T) T) :
    (specRunner desc has_free single proxy).run_const_fold use_inactive s w =
      (.ok (), { artifact := w.artifact.setSlot (w.artifact.target use_inactive)
                   { w.artifact.slot (w.artifact.target use_inactive) with
                     folded := desc.fold (Container.readRaw desc
                       (w.artifact.slot (w.artifact.target use_inactive))) },
                 trace := w.trace ++
                   [⟨"AOTInductorModelContainerRunConstantFolding",
                     Args.const_fold use_inactive s proxy, 0⟩] }) := rfl

/-- Reading the slot just replaced. -/
@[simp] theorem Container.slot_setSlot_same (c : Container T) (i : Bool) (b : ConstantBuffer T) :
    (c.setSlot i b).slot i = b := by
  cases i <;> rfl

/-- Reading the slot that was not replaced. -/
@[simp] theorem Container.slot_setSlot_other (c : Container T) (i : Bool)
    (b : ConstantBuffer T) : (c.setSlot (!i) b).slot i = c.slot i := by
  cases i <;> rfl

/-- Replacing a slot does not move the active designation. -/
@[simp] theorem Container.active_setSlot (c : Container T) (i : Bool) (b : ConstantBuffer T) :
    (c.setSlot i b).active = c.active := by
  cases i <;> rfl

/-- Moving the active designation does not touch the slots. -/
@[simp] theorem Container.slot_withActive (c : Container T) (a i : Bool) :
    ({ c with active := a } : Container T).slot i = c.slot i := by
  cases i <;> rfl

/-- The inactive slot is the other one. -/
@[simp] theorem Container.target_true (c : Container T) : c.target true = !c.active := by
  cases h : c.active <;> simp [Container.target, h]

/-- The slot selected without `use_inactive` is the active one. -/
@[simp] theorem Container.target_false (c : Container T) : c.target false = c.active := by
  cases h : c.active <;> simp [Container.target, h]

/-- C5: on a modelled artifact, from every container state and for every input, two
`swap_constant_buffer` calls in a row both succeed, the first one moves the active
designation to the other slot, the second one restores the container exactly, and `run`
after the two swaps returns what `run` returns before any swap. -/
theorem swap_twice_restores [Inhabited T] (desc : ModelDesc T) (has_free single : Bool)
    (proxy : AOTIProxyExecutorHandle) (inputs : List T) (stream_handle : StreamHandle)
    (w : World (Container T) T) :
    ((specRunner desc has_free single proxy).swap_constant_buffer w).1 = .ok () ∧
    ((specRunner desc has_free single proxy).swap_constant_buffer
      ((specRunner desc has_free single proxy).swap_constant_buffer w).2).1 = .ok () ∧
    ((specRunner desc has_free single proxy).swap_constant_buffer w).2.artifact.active =
      !w.artifact.active ∧
    ((specRunner desc has_free single proxy).swap_constant_buffer
      ((specRunner desc has_free single proxy).swap_constant_buffer w).2).2.artifact =
      w.artifact ∧
    ((specRunner desc has_free single proxy).run inputs stream_handle
      ((specRunner desc has_free single proxy).swap_constant_buffer
        ((specRunner desc has_free single proxy).swap_constant_buffer w).2).2).1 =
      ((specRunner desc has_free single proxy).run inputs stream_handle w).1 := by
  have hback : ((specRunner desc has_free single proxy).swap_constant_buffer
      ((specRunner desc has_free single proxy).swap_constant_buffer w).2).2.artifact =
      w.artifact := by
    simp only [specRunner_swap, Bool.not_not]
  refine ⟨rfl, rfl, rfl, hback, ?_⟩
  rw [specRunner_run_result, specRunner_run_result, hback]

/-- C7: on a modelled artifact, for every constant map and every input, writing into the
inactive slot with `update_inactive_constant_buffer`, followed or not by
`run_const_fold(use_inactive = true)`, succeeds, leaves the active designation and the
content of the active slot as they were, and `run` returns afterwards what it returns
before. -/
theorem inactive_write_invisible [Inhabited T] (desc : ModelDesc T) (has_free single : Bool)
    (proxy : AOTIProxyExecutorHandle) (m : TensorConstantMap T) (fold_after : Bool)
    (inputs : List T) (stream_handle cuda_stream_handle : StreamHandle)
    (w : World (Container T) T) :
    (writeInactive (specRunner desc has_free single proxy) fold_after m cuda_stream_handle
      w).1 = .ok () ∧
    (writeInactive (specRunner desc has_free single proxy) fold_after m cuda_stream_handle
      w).2.artifact.active = w.artifact.active ∧
    (writeInactive (specRunner desc has_free single proxy) fold_after m cuda_stream_handle
      w).2.artifact.slot w.artifact.active = w.artifact.slot w.artifact.active ∧
    ((specRunner desc has_free single proxy).run inputs stream_handle
      (writeInactive (specRunner desc has_free single proxy) fold_after m cuda_stream_handle
        w).2).1 =
      ((specRunner desc has_free single proxy).run inputs stream_handle w).1 := by
  cases fold_after <;>
    simp [writeInactive, Op.andThen, Op.ret, specRunner_update_inactive,
      specRunner_run_const_fold, specRunner_run_result]


/-- After a complete map was written over raw constants, the required constants read back
are those of the map. -/
theorem Container.readRaw_overlay (desc : ModelDesc T) (b : ConstantBuffer T)
    (folded : List (Option T)) (m : TensorConstantMap T)
    (hcomplete : ∀ name ∈ desc.names, (m.lookup name).isSome = true) :
    Container.readRaw desc { raw := Container.overlay b.raw m, folded := folded } =
      desc.names.map (fun name => m.lookup name) := by
  unfold Container.readRaw
  apply List.map_congr_left
  intro name hname
  have h := hcomplete name hname
  unfold Container.overlay
  cases hl : List.lookup name m with
  | none => rw [hl] at h; cases h
  | some t => simp only [hl]

/-- C8: on a modelled artifact, for every constant map `m` that has an entry for every
required constant and every input of the expected count: `update_inactive_constant_buffer m`,
then `run_const_fold(use_inactive = true)` when the artifact folds constants, then
`swap_constant_buffer` all succeed, and `run` returns the reference output of the model
computed with the constants of `m`.  In particular, when `m` carries the constants of the
active slot and its folded constants are up to date (as they are for the original weights),
`run` returns what it returned before the update. -/
theorem rotate_serves_new_constants [Inhabited T] (desc : ModelDesc T)
    (has_free single : Bool) (proxy : AOTIProxyExecutorHandle) (m : TensorConstantMap T)
    (inputs : List T) (stream_handle cuda_stream_handle : StreamHandle)
    (w : World (Container T) T)
    (hcomplete : ∀ name ∈ desc.names, (m.lookup name).isSome = true)
    (hinputs : inputs.length = desc.num_inputs) :
    (rotateConstants (specRunner desc has_free single proxy)
      desc.use_runtime_constant_folding m cuda_stream_handle w).1 = .ok () ∧
    ((specRunner desc has_free single proxy).run inputs stream_handle
      (rotateConstants (specRunner desc has_free single proxy)
        desc.use_runtime_constant_folding m cuda_stream_handle w).2).1 =
      .ok (referenceOutput desc m inputs) ∧
    ((∀ name ∈ desc.names,
        m.lookup name = (w.artifact.slot w.artifact.active).raw name) →
      (desc.use_runtime_constant_folding = true →
        (w.artifact.slot w.artifact.active).folded =
          desc.fold (Container.readRaw desc (w.artifact.slot w.artifact.active))) →
      ((specRunner desc has_free single proxy).run inputs stream_handle
        (rotateConstants (specRunner desc has_free single proxy)
          desc.use_runtime_constant_folding m cuda_stream_handle w).2).1 =
        ((specRunner desc has_free single proxy).run inputs stream_handle w).1) := by
  have hserved : Container.served desc
      ((rotateConstants (specRunner desc has_free single proxy)
        desc.use_runtime_constant_folding m cuda_stream_handle w).2.artifact.slot
        (rotateConstants (specRunner desc has_free single proxy)
          desc.use_runtime_constant_folding m cuda_stream_handle w).2.artifact.active) =
      (if desc.use_runtime_constant_folding then
        desc.fold (desc.names.map (fun name => m.lookup name))
       else desc.names.map (fun name => m.lookup name)) := by
    cases hf : desc.use_runtime_constant_folding <;>
      simp [rotateConstants, Op.andThen, Op.ret, specRunner_update_inactive,
        specRunner_run_const_fold, specRunner_swap, Container.served, hf,
        Container.readRaw_overlay desc _ _ m hcomplete]
  refine ⟨?_, ?_, ?_⟩
  · cases hf : desc.use_runtime_constant_folding <;>
      simp [rotateConstants, Op.andThen, Op.ret, specRunner_update_inactive,
        specRunner_run_const_fold, specRunner_swap]
  · rw [specRunner_run_result, hserved, if_pos hinputs]
    rfl
  · intro hsame hfresh
    rw [specRunner_run_result, specRunner_run_result, hserved, if_pos hinputs,
      if_pos hinputs]
    have hraw : desc.names.map (fun name => m.lookup name) =
        Container.readRaw desc (w.artifact.slot w.artifact.active) :=
      List.map_congr_left hsame
    cases hf : desc.use_runtime_constant_folding with
    | false => simp [Container.served, hf, hraw]
    | true => simp [Container.served, hf, hraw, hfresh hf]

end SpecRunner

/-! ## Which calls are made, what is kept -/

section Frames

variable {σ C T α β : Type}

/-- A plain return calls nothing. -/
theorem callsOnly_ret (S : String → Prop) (a : α) : CallsOnly S (Op.ret a : Op σ T α) :=
  fun w => ⟨[], by simp [Op.ret], by simp⟩

/-- A throw calls nothing. -/
theorem callsOnly_raise (S : String → Prop) (e : RunnerError) :
    CallsOnly S (Op.raise e : Op σ T α) :=
  fun w => ⟨[], by simp [Op.raise], by simp⟩

/-- A checked call calls its own symbol only. -/
theorem callsOnly_check (S : String → Prop) {symbol : String} (hS : S symbol) (args : Args T)
    (body : σ → Int × α × σ) : CallsOnly S (AOTI_RUNTIME_ERROR_CODE_CHECK symbol args body) := by
  intro w
  refine ⟨[⟨symbol, args, (body w.artifact).1⟩], ?_, by simpa using hS⟩
  unfold AOTI_RUNTIME_ERROR_CODE_CHECK callEntry
  by_cases h : (body w.artifact).1 = AOTI_RUNTIME_SUCCESS <;> simp [h]

/-- The symbols called compose along sequencing. -/
theorem callsOnly_andThen {S : String → Prop} {m : Op σ T α} {f : α → Op σ T β}
    (hm : CallsOnly S m) (hf : ∀ a, CallsOnly S (f a)) : CallsOnly S (Op.andThen m f) := by
  intro w
  obtain ⟨calls, htr, hS⟩ := hm w
  unfold Op.andThen
  rcases h : m w with ⟨res, w1⟩
  rw [h] at htr
  cases res with
  | error e => exact ⟨calls, htr, hS⟩
  | ok a =>
    obtain ⟨calls2, htr2, hS2⟩ := hf a w1
    refine ⟨calls ++ calls2, by simp only at htr ⊢; rw [htr2, htr, List.append_assoc], ?_⟩
    intro c hc
    rcases List.mem_append.mp hc with hc | hc
    · exact hS c hc
    · exact hS2 c hc

/-- A loop calls what its body calls. -/
theorem callsOnly_forLoop {S : String → Prop} {body : Nat → β → Op σ T β}
    (hbody : ∀ i b, CallsOnly S (body i b)) (idxs : List Nat) (b : β) :
    CallsOnly S (forLoop body idxs b) := by
  induction idxs generalizing b with
  | nil => exact callsOnly_ret S b
  | cons i rest ih => exact callsOnly_andThen (hbody i b) ih

/-- Mapping the returned value calls nothing more. -/
theorem callsOnly_mapResult {S : String → Prop} {m : Op σ T α} (f : α → β)
    (hm : CallsOnly S m) : CallsOnly S (Op.mapResult f m) :=
  callsOnly_andThen hm (fun a => callsOnly_ret S (f a))

/-- On a runner holding the entry points of its module, no operation other than
`swap_constant_buffer` calls the swap symbol. -/
theorem callsOnly_step [Inhabited T] {r : AOTIModelContainerRunner σ C T}
    {lib : DynamicLibrary σ C T} {single : Bool} (hres : ResolvedFrom r lib single)
    (op : Operation T) (hop : op ≠ .swap_constant_buffer) :
    CallsOnly notSwap (r.step op) := by
  obtain ⟨-, -, -, -, -, hout, -, hrun, -, hnum, -, hname, -, hfqn, -, hdtype, -, hupd, -,
    hupdi, -, hfold, -, -, -, hspec, hfree⟩ := hres
  have hrun' : notSwap r.run_func_.symbol := by
    unfold notSwap; rw [hrun]; cases single <;> decide
  have hout' : notSwap r.get_num_outputs_func_.symbol := by
    unfold notSwap; rw [hout]; decide
  have hnum' : notSwap r.get_num_constants_func_.symbol := by
    unfold notSwap; rw [hnum]; decide
  have hname' : notSwap r.get_constant_name_func_.symbol := by
    unfold notSwap; rw [hname]; decide
  have hfqn' : notSwap r.get_constant_original_fqn_func_.symbol := by
    unfold notSwap; rw [hfqn]; decide
  have hdtype' : notSwap r.get_constant_dtype_func_.symbol := by
    unfold notSwap; rw [hdtype]; decide
  have hupd' : notSwap r.update_constant_buffer_func_.symbol := by
    unfold notSwap; rw [hupd]; decide
  have hupdi' : notSwap r.update_inactive_constant_buffer_func_.symbol := by
    unfold notSwap; rw [hupdi]; decide
  have hfold' : notSwap r.run_const_fold_func_.symbol := by
    unfold notSwap; rw [hfold]; decide
  have hspec' : notSwap r.get_call_spec_func_.symbol := by
    unfold notSwap; rw [hspec]; decide
  have hfreesym : notSwap "AOTInductorModelContainerFreeInactiveConstantBuffer" := by
    unfold notSwap; decide
  have hrun_impl : ∀ hs s, CallsOnly notSwap (r.run_impl hs s) := fun hs s =>
    callsOnly_andThen (callsOnly_check _ hout' _ _) (fun _ =>
      callsOnly_andThen (callsOnly_check _ hrun' _ _) (fun _ => callsOnly_ret _ _))
  cases op with
  | run inputs stream_handle => exact callsOnly_mapResult _ (hrun_impl _ _)
  | boxed_run inputs stream_handle => exact callsOnly_mapResult _ (hrun_impl _ _)
  | getConstantNamesToOriginalFQNs =>
    exact callsOnly_mapResult _ (callsOnly_andThen (callsOnly_check _ hnum' _ _)
      (fun _ => callsOnly_forLoop (fun _ _ =>
        callsOnly_andThen (callsOnly_check _ hname' _ _) (fun _ =>
          callsOnly_andThen (callsOnly_check _ hfqn' _ _)
            (fun _ => callsOnly_ret _ _))) _ _))
  | getConstantNamesToDtypes =>
    exact callsOnly_mapResult _ (callsOnly_andThen (callsOnly_check _ hnum' _ _)
      (fun _ => callsOnly_forLoop (fun _ _ =>
        callsOnly_andThen (callsOnly_check _ hname' _ _) (fun _ =>
          callsOnly_andThen (callsOnly_check _ hdtype' _ _)
            (fun _ => callsOnly_ret _ _))) _ _))
  | update_constant_buffer m u k =>
    exact callsOnly_mapResult _ (callsOnly_check _ hupd' _ _)
  | update_constant_buffer_tensor_map m u k =>
    exact callsOnly_mapResult _ (callsOnly_check _ hupd' _ _)
  | update_inactive_constant_buffer m =>
    exact callsOnly_mapResult _ (callsOnly_check _ hupdi' _ _)
  | run_const_fold u s =>
    exact callsOnly_mapResult _ (callsOnly_check _ hfold' _ _)
  | swap_constant_buffer => exact absurd rfl hop
  | free_inactive_constant_buffer =>
    refine callsOnly_mapResult _ ?_
    unfold AOTIModelContainerRunner.free_inactive_constant_buffer
    rw [hfree]
    cases lib.AOTInductorModelContainerFreeInactiveConstantBuffer with
    | none => exact callsOnly_raise _ _
    | some f => exact callsOnly_check _ hfreesym _ _
  | get_call_spec =>
    exact callsOnly_mapResult _ (callsOnly_andThen (callsOnly_check _ hspec' _ _)
      (fun _ => callsOnly_ret _ _))

/-- A plain return keeps every invariant. -/
theorem keeps_ret (P : σ → Prop) (a : α) : Keeps P (Op.ret a : Op σ T α) :=
  fun _ h => h

/-- A throw keeps every invariant. -/
theorem keeps_raise (P : σ → Prop) (e : RunnerError) : Keeps P (Op.raise e : Op σ T α) :=
  fun _ h => h

/-- A checked call keeps what the entry point keeps. -/
theorem keeps_check {P : σ → Prop} (symbol : String) (args : Args T)
    {body : σ → Int × α × σ} (hbody : ∀ s, P s → P (body s).2.2) :
    Keeps P (AOTI_RUNTIME_ERROR_CODE_CHECK symbol args body : Op σ T α) := by
  intro w hw
  unfold AOTI_RUNTIME_ERROR_CODE_CHECK callEntry
  by_cases h : (body w.artifact).1 = AOTI_RUNTIME_SUCCESS <;> simp [h] <;> exact hbody _ hw

/-- Invariants compose along sequencing. -/
theorem keeps_andThen {P : σ → Prop} {m : Op σ T α} {f : α → Op σ T β}
    (hm : Keeps P m) (hf : ∀ a, Keeps P (f a)) : Keeps P (Op.andThen m f) := by
  intro w hw
  have h1 := hm w hw
  unfold Op.andThen
  rcases h : m w with ⟨res, w1⟩
  rw [h] at h1
  cases res with
  | error e => exact h1
  | ok a => exact hf a w1 h1

/-- A loop keeps what its body keeps. -/
theorem keeps_forLoop {P : σ → Prop} {body : Nat → β → Op σ T β}
    (hbody : ∀ i b, Keeps P (body i b)) (idxs : List Nat) (b : β) :
    Keeps P (forLoop body idxs b : Op σ T β) := by
  induction idxs generalizing b with
  | nil => exact keeps_ret P b
  | cons i rest ih => exact keeps_andThen (hbody i b) ih

/-- Mapping the returned value keeps every invariant. -/
theorem keeps_mapResult {P : σ → Prop} {m : Op σ T α} (f : α → β) (hm : Keeps P m) :
    Keeps P (Op.mapResult f m) :=
  keeps_andThen hm (fun a => keeps_ret P (f a))

end Frames

section ActiveSlot

variable {T : Type}

/-- On a modelled artifact no operation other than `swap_constant_buffer` moves the active
designation. -/
theorem specRunner_step_keeps_active [Inhabited T] (desc : ModelDesc T)
    (has_free single : Bool) (proxy : AOTIProxyExecutorHandle) (op : Operation T)
    (hop : op ≠ .swap_constant_buffer) (a : Bool) :
    Keeps (fun c : Container T => c.active = a)
      ((specRunner desc has_free single proxy).step op) := by
  have hupdate : ∀ m u k (c : Container T), c.active = a →
      (Container.update_constant_buffer desc () m u k c).2.active = a := by
    intro m u k c h
    unfold Container.update_constant_buffer
    split <;> simpa using h
  have hrun_impl : ∀ hs s, Keeps (fun c : Container T => c.active = a)
      ((specRunner desc has_free single proxy).run_impl hs s) := by
    intro hs s
    unfold AOTIModelContainerRunner.run_impl
    simp only [Op.bind_eq, Op.pure_eq]
    refine keeps_andThen (keeps_check _ _ ?_) (fun _ =>
      keeps_andThen (keeps_check _ _ ?_) (fun _ => keeps_ret _ _))
    · intro c h; exact h
    · intro c h
      simp only [specRunner, Container.run]
      split <;> exact h
  cases op with
  | run inputs stream_handle => exact keeps_mapResult _ (hrun_impl _ _)
  | boxed_run inputs stream_handle => exact keeps_mapResult _ (hrun_impl _ _)
  | getConstantNamesToOriginalFQNs =>
    unfold AOTIModelContainerRunner.step AOTIModelContainerRunner.getConstantNamesToOriginalFQNs
    simp only [Op.bind_eq, Op.pure_eq]
    refine keeps_mapResult _ (keeps_andThen (keeps_check _ _ ?_)
      (fun _ => keeps_forLoop (fun i _ =>
        keeps_andThen (keeps_check _ _ ?_) (fun _ =>
          keeps_andThen (keeps_check _ _ ?_) (fun _ => keeps_ret _ _))) _ _))
    · intro c h; exact h
    · intro c h
      simp only [specRunner, Container.get_constant_name]
      split <;> exact h
    · intro c h
      simp only [specRunner, Container.get_constant_original_fqn]
      split <;> exact h
  | getConstantNamesToDtypes =>
    unfold AOTIModelContainerRunner.step AOTIModelContainerRunner.getConstantNamesToDtypes
    simp only [Op.bind_eq, Op.pure_eq]
    refine keeps_mapResult _ (keeps_andThen (keeps_check _ _ ?_)
      (fun _ => keeps_forLoop (fun i _ =>
        keeps_andThen (keeps_check _ _ ?_) (fun _ =>
          keeps_andThen (keeps_check _ _ ?_) (fun _ => keeps_ret _ _))) _ _))
    · intro c h; exact h
    · intro c h
      simp only [specRunner, Container.get_constant_name]
      split <;> exact h
    · intro c h
      simp only [specRunner, Container.get_constant_dtype]
      split <;> exact h
  | update_constant_buffer m u k =>
    refine keeps_mapResult _ (keeps_check _ _ ?_)
    intro c h; exact hupdate m u k c h
  | update_constant_buffer_tensor_map m u k =>
    refine keeps_mapResult _ (keeps_check _ _ ?_)
    intro c h; exact hupdate _ u k c h
  | update_inactive_constant_buffer m =>
    refine keeps_mapResult _ (keeps_check _ _ ?_)
    intro c h; exact hupdate m true false c h
  | run_const_fold u s =>
    refine keeps_mapResult _ (keeps_check _ _ ?_)
    intro c h
    simpa [specRunner, Container.run_const_fold, noOut] using h
  | swap_constant_buffer => exact absurd rfl hop
  | free_inactive_constant_buffer =>
    refine keeps_mapResult _ ?_
    unfold AOTIModelContainerRunner.free_inactive_constant_buffer
    cases has_free with
    | false => exact keeps_raise _ _
    | true =>
      refine keeps_check _ _ ?_
      intro c h
      simpa [Container.free_inactive_constant_buffer, noOut] using h
  | get_call_spec =>
    unfold AOTIModelContainerRunner.step AOTIModelContainerRunner.get_call_spec
    simp only [Op.bind_eq, Op.pure_eq]
    refine keeps_mapResult _ (keeps_andThen (keeps_check _ _ ?_) (fun _ => keeps_ret _ _))
    intro c h; exact h

end ActiveSlot

/-! ## The active designation -/

section ActiveDesignation

variable {σ C T : Type}

/-- C6: in every container state exactly one of the two slots is active, and
`swap_constant_buffer` is the only operation that changes which one.  For a runner the
constructor built from any module, an operation other than `swap_constant_buffer` never
calls the swap symbol; on a modelled artifact such an operation leaves the active
designation as it was, while `swap_constant_buffer` moves it to the other slot. -/
theorem swap_only_changes_active [Inhabited T]
    (host : Host σ C T) (lib : DynamicLibrary σ C T) (model_so_path : String)
    (num_models : Nat) (device_str cubin_dir : String) (run_single_threaded : Bool)
    (w0 w0' : World σ T) (r : AOTIModelContainerRunner σ C T)
    (hopen : host.dlopen model_so_path = some lib)
    (hctor : AOTIModelContainerRunner.ctor host model_so_path num_models device_str cubin_dir
      run_single_threaded w0 = (.ok r, w0'))
    (op : Operation T) (hop : op ≠ .swap_constant_buffer) (w : World σ T)
    (desc : ModelDesc T) (has_free single : Bool) (proxy : AOTIProxyExecutorHandle)
    (ws : World (Container T) T) :
    (∀ c ∈ newCalls w (r.step op w).2,
      c.symbol ≠ "AOTInductorModelContainerSwapConstantBuffer") ∧
    ((specRunner desc has_free single proxy).step op ws).2.artifact.active =
      ws.artifact.active ∧
    ((specRunner desc has_free single proxy).swap_constant_buffer ws).2.artifact.active =
      !ws.artifact.active ∧
    (∃! i : Fin 2, ws.artifact.isActive i) := by
  refine ⟨?_, ?_, rfl, ?_⟩
  · obtain ⟨calls, htr, hS⟩ := callsOnly_step (ctor_ok_resolved hopen hctor) op hop w
    rw [newCalls_append _ _ _ htr]
    exact hS
  · exact specRunner_step_keeps_active desc has_free single proxy op hop ws.artifact.active
      ws rfl
  · exact ⟨if ws.artifact.active then 1 else 0, rfl, fun j hj => hj⟩

/-- Witness for C6: a `run` on the example artifact. -/
theorem swap_only_changes_active_witness :
    (∀ c ∈ newCalls (exampleWorld false)
        ((exampleRunner false).step (.run [5] 0) (exampleWorld false)).2,
      c.symbol ≠ "AOTInductorModelContainerSwapConstantBuffer") ∧
    ((specRunner (exampleDesc false) true false none).step (.run [5] 0)
      (exampleWorld false)).2.artifact.active = (exampleWorld false).artifact.active ∧
    ((specRunner (exampleDesc false) true false none).swap_constant_buffer
      (exampleWorld false)).2.artifact.active = !(exampleWorld false).artifact.active ∧
    (∃! i : Fin 2, (exampleWorld false).artifact.isActive i) :=
  swap_only_changes_active (hostOf (specLibrary (exampleDesc false) true) [])
    (specLibrary (exampleDesc false) true) "model.so" 1 "cpu" "" false (exampleWorld false) _
    (exampleRunner false) rfl
    (ctor_specLibrary (exampleDesc false) true false [] "model.so" 1 "cpu" ""
      (exampleWorld false))
    (.run [5] 0) (by intro h; cases h) (exampleWorld false)
    (exampleDesc false) true false none (exampleWorld false)

/-- Witness for C8: rotating a complete map into the example artifact that folds constants. -/
theorem rotate_serves_new_constants_witness :
    (rotateConstants (specRunner (exampleDesc true) true false none)
      (exampleDesc true).use_runtime_constant_folding exampleFullMap 0
      (exampleWorld true)).1 = .ok () ∧
    ((specRunner (exampleDesc true) true false none).run [5] 0
      (rotateConstants (specRunner (exampleDesc true) true false none)
        (exampleDesc true).use_runtime_constant_folding exampleFullMap 0
        (exampleWorld true)).2).1 =
      .ok (referenceOutput (exampleDesc true) exampleFullMap [5]) ∧
    ((∀ name ∈ (exampleDesc true).names,
        exampleFullMap.lookup name =
          ((exampleWorld true).artifact.slot (exampleWorld true).artifact.active).raw name) →
      ((exampleDesc true).use_runtime_constant_folding = true →
        ((exampleWorld true).artifact.slot (exampleWorld true).artifact.active).folded =
          (exampleDesc true).fold (Container.readRaw (exampleDesc true)
            ((exampleWorld true).artifact.slot (exampleWorld true).artifact.active))) →
      ((specRunner (exampleDesc true) true false none).run [5] 0
        (rotateConstants (specRunner (exampleDesc true) true false none)
          (exampleDesc true).use_runtime_constant_folding exampleFullMap 0
          (exampleWorld true)).2).1 =
        ((specRunner (exampleDesc true) true false none).run [5] 0 (exampleWorld true)).1) :=
  rotate_serves_new_constants (exampleDesc true) true false none exampleFullMap [5] 0 0
    (exampleWorld true) (by decide) rfl

/-- On the example artifact the burned-in constants give `2 * 5 + 3`. -/
theorem exampleRunner_run_burned_in :
    ((exampleRunner false).run [5] 0 (exampleWorld false)).1 = .ok [13] := rfl

/-- After rotating `exampleFullMap` in, the example artifact gives `4 * 5 + 1`. -/
theorem exampleRunner_run_rotated :
    ((exampleRunner true).run [5] 0
      (rotateConstants (exampleRunner true) true exampleFullMap 0 (exampleWorld true)).2).1 =
      .ok [21] := rfl

/-- An input sequence of the wrong count is rejected by the example artifact, not locally. -/
theorem exampleRunner_run_wrong_count :
    ((exampleRunner false).run [5, 6] 0 (exampleWorld false)).1 =
      .error (.api_call_failed 1 "AOTInductorModelContainerRun") := rfl

end ActiveDesignation

/-! ## Boxed runs and the sidecar path -/

section Boxed

variable {σ C T : Type}

/-- Casting a list of wrapped tensors gives the tensors back, in order. -/
theorem castInputs_tensors (ts : List T) :
    castInputs (ts.map PyObject.tensor) = .ok ts := by
  induction ts with
  | nil => rfl
  | cons t rest ih => simp [castInputs, PyObject.cast, ih]

/-- C18: for every input sequence and every world, `boxed_run` is `run` as far as the
artifact is concerned: the same calls are traced and the same outputs or the same exception
come back; in addition the caller's vector is left empty, whatever the artifact call does.
The Python-facing `boxed_run`, given a list of wrapped tensors, leaves the passed-in list
empty as well, whatever the loader it forwards to does, and returns the outputs of that
loader wrapped in the same order (or passes its exception on). -/
theorem boxed_run_as_run [Inhabited T] (r : AOTIModelContainerRunner σ C T)
    (loader_boxed_run : List T → StreamHandle → Op σ T (List T))
    (inputs : List T) (stream_handle : StreamHandle) (w : World σ T) :
    (r.boxed_run inputs stream_handle).1 w = r.run inputs stream_handle w ∧
    (r.boxed_run inputs stream_handle).2 = [] ∧
    (AOTIModelPackageLoaderPybind.boxed_run loader_boxed_run
        (inputs.map PyObject.tensor) stream_handle w).2 = [] ∧
    (AOTIModelPackageLoaderPybind.boxed_run loader_boxed_run
        (inputs.map PyObject.tensor) stream_handle w).1 =
      (match loader_boxed_run inputs stream_handle w with
        | (.ok outputs, w') => (.ok (outputs.map PyObject.tensor), w')
        | (.error e, w') => (.error (.runtime e), w')) := by
  refine ⟨rfl, rfl, ?_, ?_⟩ <;>
  · unfold AOTIModelPackageLoaderPybind.boxed_run
    rw [castInputs_tensors]
    simp only
    rcases loader_boxed_run inputs stream_handle w with ⟨res, w'⟩
    cases res <;> rfl

/-- A Python list holding something that is not a tensor makes the cast throw before the
list is cleared: the list is left as it was and the loader is never entered. -/
theorem pybind_boxed_run_cast_failure (loader_boxed_run : List T → StreamHandle → Op σ T (List T))
    (front : List T) (repr : String) (rest : List (PyObject T))
    (stream_handle : StreamHandle) (w : World σ T) :
    AOTIModelPackageLoaderPybind.boxed_run loader_boxed_run
        (front.map PyObject.tensor ++ PyObject.other repr :: rest) stream_handle w =
      ((.error .cast_error, w), front.map PyObject.tensor ++ PyObject.other repr :: rest) := by
  have h : castInputs (front.map PyObject.tensor ++ PyObject.other repr :: rest) =
      (.error .cast_error : Except PyError (List T)) := by
    induction front with
    | nil => rfl
    | cons t front ih => simp [castInputs, PyObject.cast, ih]
  unfold AOTIModelPackageLoaderPybind.boxed_run
  rw [h]

/-- C14: at the path `dir.v2/model` the claim fails.  The file name `model` has no
extension, yet the constructor cuts the path at the `.` of the directory and probes
`dir.json`; replacing the extension of the file name stays inside `dir.v2/`. -/
theorem json_filename_cuts_inside_directory :
    json_filename "dir.v2/model" = "dir.json" ∧
    sidecarPathBySpec "dir.v2/model" = "dir.v2/model.json" ∧
    json_filename "dir.v2/model" ≠ sidecarPathBySpec "dir.v2/model" := by
  decide

/-- Where the file name has an extension, or the path has no `.` at all, the two agree. -/
theorem json_filename_examples :
    json_filename "model.so" = "model.json" ∧ sidecarPathBySpec "model.so" = "model.json" ∧
    json_filename "/a/b.c/model.so" = "/a/b.c/model.json" ∧
    sidecarPathBySpec "/a/b.c/model.so" = "/a/b.c/model.json" ∧
    json_filename "model" = "model.json" ∧ sidecarPathBySpec "model" = "model.json" := by
  decide

/-- Scanning characters that are not `c` leaves the last index found unchanged. -/
theorem find_last_of_step_absent (c : Char) (l : List Char) (k : Nat) (acc : Option Nat)
    (h : c ∉ l) :
    (l.enumFrom k).foldl (fun acc p => if p.2 = c then some p.1 else acc) acc = acc := by
  induction l generalizing k acc with
  | nil => rfl
  | cons x rest ih =>
    have hx : x ≠ c := fun e => h (by simp [e])
    have hrest : c ∉ rest := fun e => h (by simp [e])
    simp only [List.enumFrom_cons, List.foldl_cons, hx, if_false]
    exact ih _ _ hrest

/-- The last occurrence of `c` in `front ++ c :: ext` is right after `front` when `ext`
has none. -/
theorem find_last_of_append_cons (front ext : List Char) (c : Char) (h : c ∉ ext) :
    find_last_of (front ++ c :: ext) c = some front.length := by
  unfold find_last_of
  rw [List.enum, List.enumFrom_append, List.foldl_append, List.enumFrom_cons, List.foldl_cons]
  simp only [if_true, Nat.zero_add]
  exact find_last_of_step_absent c ext _ _ h

/-- For a path `front.ext` whose `ext` has no `.`, the sidecar path is `front.json`. -/
theorem json_filename_replaces_extension (front ext : String) (h : '.' ∉ ext.toList) :
    json_filename (front ++ "." ++ ext) = front ++ ".json" := by
  unfold json_filename
  have hl : (front ++ "." ++ ext).toList = front.toList ++ '.' :: ext.toList := by
    simp [String.toList]
  simp only [hl, find_last_of_append_cons _ _ _ h, substr0, List.take_left']
  rfl

/-- An index found by the scan lies within the scanned range. -/
theorem find_last_of_step_bound (c : Char) (l : List Char) (k : Nat) (acc : Option Nat)
    (i : Nat)
    (h : (l.enumFrom k).foldl (fun acc p => if p.2 = c then some p.1 else acc) acc = some i) :
    acc = some i ∨ (k ≤ i ∧ i < k + l.length) := by
  induction l generalizing k acc with
  | nil => exact Or.inl h
  | cons x rest ih =>
    simp only [List.enumFrom_cons, List.foldl_cons] at h
    rcases ih _ _ h with h1 | ⟨h1, h2⟩
    · by_cases hx : x = c
      · simp only [hx, if_true, Option.some.injEq] at h1
        right; simp; omega
      · simp only [hx, if_false] at h1
        exact Or.inl h1
    · right; simp; omega

/-- A tail without `c` does not move the last occurrence of `c`. -/
theorem find_last_of_append_absent (front tail : List Char) (c : Char) (h : c ∉ tail) :
    find_last_of (front ++ tail) c = find_last_of front c := by
  unfold find_last_of
  rw [List.enum, List.enumFrom_append, List.foldl_append]
  exact find_last_of_step_absent c tail _ _ h

/-- The file name starts inside the path. -/
theorem fileNameStart_le (front : List Char) : fileNameStart front ≤ front.length := by
  unfold fileNameStart
  cases h : find_last_of front '/' with
  | none => simp
  | some i =>
    rcases find_last_of_step_bound '/' front 0 none i h with h1 | ⟨_, h2⟩
    · cases h1
    · simp only; omega

/-- For a path `front.ext` whose `ext` has neither `.` nor `/`, replacing the extension of
the file name gives `front.json`. -/
theorem sidecarPathBySpec_replaces_extension (front ext : String) (h : '.' ∉ ext.toList)
    (hfile : '/' ∉ ext.toList) :
    sidecarPathBySpec (front ++ "." ++ ext) = front ++ ".json" := by
  unfold sidecarPathBySpec
  have hl : (front ++ "." ++ ext).toList = front.toList ++ '.' :: ext.toList := by
    simp [String.toList]
  have hstart : fileNameStart (front.toList ++ '.' :: ext.toList) =
      fileNameStart front.toList := by
    unfold fileNameStart
    rw [find_last_of_append_absent]
    intro hmem
    rcases List.mem_cons.mp hmem with e | e
    · exact absurd e (by decide)
    · exact hfile e
  have hle := fileNameStart_le front.toList
  simp only [hl, hstart]
  rw [List.take_append_of_le_length hle, List.drop_append_of_le_length hle,
    find_last_of_append_cons _ _ _ h, substr0]
  simp only [List.take_left', List.take_append_drop]
  rfl
/-- Where the sidecar path is the file-extension replacement: the constructor cuts the
module path at its last `.`, wherever in the path that is, and appends `.json`.  A path
`front.ext` whose `ext` has no `.` gives `front.json`, a path without any `.` gets `.json`
appended; when `ext` has no `/` either, so that it is the extension of the file name, this
is the path with its file extension replaced by `json`. -/
theorem json_filename_cuts_at_last_dot (front ext path : String) :
    ('.' ∉ ext.toList → json_filename (front ++ "." ++ ext) = front ++ ".json") ∧
    ('.' ∉ path.toList → json_filename path = path ++ ".json") ∧
    ('.' ∉ ext.toList → '/' ∉ ext.toList →
      json_filename (front ++ "." ++ ext) = sidecarPathBySpec (front ++ "." ++ ext)) := by
  refine ⟨json_filename_replaces_extension front ext, ?_, ?_⟩
  · intro h
    unfold json_filename
    have hnone : find_last_of path.toList '.' = none := by
      unfold find_last_of
      exact find_last_of_step_absent '.' path.toList 0 none h
    simp only [hnone, substr0]
    rfl
  · intro h hfile
    rw [json_filename_replaces_extension front ext h,
      sidecarPathBySpec_replaces_extension front ext h hfile]

/-- The paths `dir.v2/model.so` and `model`, where the two readings agree. -/
theorem json_filename_cuts_at_last_dot_examples :
    json_filename ("dir.v2/model" ++ "." ++ "so") = "dir.v2/model" ++ ".json" ∧
    json_filename "model" = "model" ++ ".json" ∧
    json_filename ("dir.v2/model" ++ "." ++ "so") =
      sidecarPathBySpec ("dir.v2/model" ++ "." ++ "so") :=
  ⟨(json_filename_cuts_at_last_dot "dir.v2/model" "so" "model").1 (by decide),
   (json_filename_cuts_at_last_dot "dir.v2/model" "so" "model").2.1 (by decide),
   (json_filename_cuts_at_last_dot "dir.v2/model" "so" "model").2.2 (by decide) (by decide)⟩

end Boxed

/-! ## Partial updates and constant folding -/

section Updates

variable {T : Type}

/-- What `update_constant_buffer` does on a modelled artifact when the map is accepted. -/
theorem specRunner_update_accepted (desc : ModelDesc T) (has_free single : Bool)
    (proxy : AOTIProxyExecutorHandle) (m : TensorConstantMap T)
    (use_inactive check_full_update : Bool) (w : World (Container T) T)
    (hacc : (check_full_update && !(Container.covers desc m)) = false) :
    (specRunner desc has_free single proxy).update_constant_buffer m use_inactive
        check_full_update w =
      (.ok (), { artifact := w.artifact.setSlot (w.artifact.target use_inactive)
                   { w.artifact.slot (w.artifact.target use_inactive) with
                     raw := Container.overlay
                       (w.artifact.slot (w.artifact.target use_inactive)).raw m },
                 trace := w.trace ++
                   [⟨"AOTInductorModelContainerUpdateConstantBuffer",
                     Args.update m use_inactive check_full_update, 0⟩] }) := by
  simp [AOTIModelContainerRunner.update_constant_buffer, AOTI_RUNTIME_ERROR_CODE_CHECK,
    callEntry, noOut, specRunner, Container.update_constant_buffer, hacc,
    AOTI_RUNTIME_SUCCESS]

/-- What `update_constant_buffer` does on a modelled artifact when the map is rejected. -/
theorem specRunner_update_rejected (desc : ModelDesc T) (has_free single : Bool)
    (proxy : AOTIProxyExecutorHandle) (m : TensorConstantMap T)
    (use_inactive check_full_update : Bool) (w : World (Container T) T)
    (hrej : (check_full_update && !(Container.covers desc m)) = true) :
    ((specRunner desc has_free single proxy).update_constant_buffer m use_inactive
        check_full_update w).1 =
      .error (.api_call_failed 1 "AOTInductorModelContainerUpdateConstantBuffer") := by
  simp [AOTIModelContainerRunner.update_constant_buffer, AOTI_RUNTIME_ERROR_CODE_CHECK,
    callEntry, noOut, specRunner, Container.update_constant_buffer, hrej,
    AOTI_RUNTIME_SUCCESS]

/-- Counterexample for C11: on the example artifact (no constant folding) the partial map
writes `7` over the original `2` of `L__self___w_pre`, a different value, and `run` on the
input `0` still returns the reference output `[3]`, because `w_pre * 0 + w_add` does not
depend on `w_pre`. -/
theorem differing_write_same_output_counterexample :
    exampleMissingMap.lookup "L__self___w_pre" = some 7 ∧
    (exampleDesc false).burned_in "L__self___w_pre" = some 2 ∧
    exampleMissingMap.lookup "L__self___w_pre" ≠
      (exampleDesc false).burned_in "L__self___w_pre" ∧
    ((exampleRunner false).update_constant_buffer exampleMissingMap false false
      (exampleWorld false)).1 = .ok () ∧
    ((exampleRunner false).run [0] 0 (exampleWorld false)).1 = .ok [3] ∧
    ((exampleRunner false).run [0] 0
      ((exampleRunner false).update_constant_buffer exampleMissingMap false false
        (exampleWorld false)).2).1 = .ok [3] :=
  ⟨rfl, rfl, by decide, rfl, rfl, rfl⟩

/-- C11 (amended): on a modelled artifact without constant folding,
`update_constant_buffer` on the active slot with `check_full_update = false` accepts any map,
also one naming only some constants, and overwrites exactly the names it mentions; `run` then
returns the outputs of the model computed from the overwritten constants; and after a second
such update that writes the original values back over every name the first one wrote, `run`
returns the reference outputs again: the last write to a name wins. -/
theorem partial_update_overwrites_named [Inhabited T] (desc : ModelDesc T)
    (has_free single : Bool) (proxy : AOTIProxyExecutorHandle)
    (m m0 : TensorConstantMap T) (inputs : List T) (stream_handle : StreamHandle)
    (w : World (Container T) T)
    (hnofold : desc.use_runtime_constant_folding = false)
    (hinputs : inputs.length = desc.num_inputs)
    (hcover : ∀ name ∈ desc.names,
      (m.lookup name).isSome = true → (m0.lookup name).isSome = true)
    (horig : ∀ name ∈ desc.names, ∀ t, m0.lookup name = some t →
      (w.artifact.slot w.artifact.active).raw name = some t) :
    ((specRunner desc has_free single proxy).update_constant_buffer m false false w).1 =
      .ok () ∧
    (((specRunner desc has_free single proxy).update_constant_buffer m false false
        w).2.artifact.slot w.artifact.active).raw =
      Container.overlay (w.artifact.slot w.artifact.active).raw m ∧
    ((specRunner desc has_free single proxy).run inputs stream_handle
      ((specRunner desc has_free single proxy).update_constant_buffer m false false w).2).1 =
      .ok (Container.outputs desc
        (desc.names.map (Container.overlay (w.artifact.slot w.artifact.active).raw m))
        (unsafe_alloc_new_handles_from_tensors inputs)) ∧
    ((specRunner desc has_free single proxy).update_constant_buffer m0 false false
      ((specRunner desc has_free single proxy).update_constant_buffer m false false w).2).1 =
      .ok () ∧
    ((specRunner desc has_free single proxy).run inputs stream_handle
      ((specRunner desc has_free single proxy).update_constant_buffer m0 false false
        ((specRunner desc has_free single proxy).update_constant_buffer m false false
          w).2).2).1 =
      ((specRunner desc has_free single proxy).run inputs stream_handle w).1 := by
  have hacc : ∀ m' : TensorConstantMap T, (false && !(Container.covers desc m')) = false :=
    fun _ => rfl
  simp only [specRunner_update_accepted desc has_free single proxy _ false false _ (hacc _),
    specRunner_run_result, if_pos hinputs, Container.target_false,
    Container.slot_setSlot_same, Container.active_setSlot, Container.served, hnofold,
    Container.readRaw]
  refine ⟨trivial, trivial, ?_, trivial, ?_⟩
  · simp
  · simp only [Bool.false_eq_true, if_false]
    congr 2
    apply List.map_congr_left
    intro name hname
    show Container.overlay (Container.overlay _ m) m0 name = _
    unfold Container.overlay
    cases h0 : List.lookup name m0 with
    | some t => simp only [horig name hname t h0]
    | none =>
      cases h1 : List.lookup name m with
      | none => rfl
      | some t =>
        have := hcover name hname (by simp [h1])
        rw [h0] at this
        cases this


/-- What `runOnSlot` returns on a modelled artifact. -/
theorem specRunner_runOnSlot_result [Inhabited T] (desc : ModelDesc T)
    (has_free single : Bool) (proxy : AOTIProxyExecutorHandle) (use_inactive : Bool)
    (inputs : List T) (stream_handle : StreamHandle) (w : World (Container T) T) :
    (runOnSlot (specRunner desc has_free single proxy) use_inactive inputs stream_handle
        w).1 =
      if inputs.length = desc.num_inputs then
        .ok (Container.outputs desc
          (Container.served desc (w.artifact.slot (w.artifact.target use_inactive)))
          (unsafe_alloc_new_handles_from_tensors inputs))
      else .error (.api_call_failed 1
        (if single then "AOTInductorModelContainerRunSingleThreaded"
          else "AOTInductorModelContainerRun")) := by
  cases use_inactive with
  | false =>
    simp only [runOnSlot, Bool.false_eq_true, if_false, specRunner_run_result,
      Container.target_false]
  | true =>
    simp only [runOnSlot, if_true, Op.andThen, specRunner_swap, specRunner_run_result,
      Container.target_true, Container.slot_withActive]

/-- Witness for C11 (amended): `w_pre` overwritten on the example artifact, then restored. -/
theorem partial_update_overwrites_named_witness :
    ((specRunner (exampleDesc false) true false none).update_constant_buffer
      exampleMissingMap false false (exampleWorld false)).1 = .ok () ∧
    (((specRunner (exampleDesc false) true false none).update_constant_buffer
        exampleMissingMap false false (exampleWorld false)).2.artifact.slot
        (exampleWorld false).artifact.active).raw =
      Container.overlay
        ((exampleWorld false).artifact.slot (exampleWorld false).artifact.active).raw
        exampleMissingMap ∧
    ((specRunner (exampleDesc false) true false none).run [5] 0
      ((specRunner (exampleDesc false) true false none).update_constant_buffer
        exampleMissingMap false false (exampleWorld false)).2).1 =
      .ok (Container.outputs (exampleDesc false)
        ((exampleDesc false).names.map (Container.overlay
          ((exampleWorld false).artifact.slot (exampleWorld false).artifact.active).raw
          exampleMissingMap))
        (unsafe_alloc_new_handles_from_tensors [5])) ∧
    ((specRunner (exampleDesc false) true false none).update_constant_buffer
      exampleOriginalPreMap false false
      ((specRunner (exampleDesc false) true false none).update_constant_buffer
        exampleMissingMap false false (exampleWorld false)).2).1 = .ok () ∧
    ((specRunner (exampleDesc false) true false none).run [5] 0
      ((specRunner (exampleDesc false) true false none).update_constant_buffer
        exampleOriginalPreMap false false
        ((specRunner (exampleDesc false) true false none).update_constant_buffer
          exampleMissingMap false false (exampleWorld false)).2).2).1 =
      ((specRunner (exampleDesc false) true false none).run [5] 0 (exampleWorld false)).1 :=
  partial_update_overwrites_named (exampleDesc false) true false none exampleMissingMap
    exampleOriginalPreMap [5] 0 (exampleWorld false) rfl rfl (by decide) (by decide)

/-- On the example artifact a different `w_pre` does change the output for the input `5`,
and writing the original back restores it. -/
theorem exampleRunner_partial_update_visible :
    ((exampleRunner false).run [5] 0
      ((exampleRunner false).update_constant_buffer exampleMissingMap false false
        (exampleWorld false)).2).1 = .ok [38] ∧
    ((exampleRunner false).run [5] 0
      ((exampleRunner false).update_constant_buffer exampleOriginalPreMap false false
        ((exampleRunner false).update_constant_buffer exampleMissingMap false false
          (exampleWorld false)).2).2).1 = .ok [13] :=
  ⟨rfl, rfl⟩

/-- On the example artifact with constant folding the new `w_pre` shows only after the
constant-folding run. -/
theorem exampleRunner_stale_then_fresh :
    ((exampleRunner true).run [5] 0
      ((exampleRunner true).update_constant_buffer exampleMissingMap false false
        (exampleWorld true)).2).1 = .ok [13] ∧
    ((exampleRunner true).run [5] 0
      ((exampleRunner true).run_const_fold false 0
        ((exampleRunner true).update_constant_buffer exampleMissingMap false false
          (exampleWorld true)).2).2).1 = .ok [38] :=
  ⟨rfl, rfl⟩

end Updates

/-! ## Constant introspection -/

section Introspection

variable {σ C T β : Type}

/-- A name not among the first `k` is not a key of the first `k` entries. -/
theorem lookup_pairs_none (names : Nat → String) (vals : Nat → β) (k : Nat) (name : String)
    (h : ∀ j < k, name ≠ names j) :
    ((List.range k).map (fun j => (names j, vals j))).lookup name = none := by
  rw [List.lookup_eq_none_iff]
  intro p hp
  obtain ⟨j, hj, rfl⟩ := List.mem_map.mp hp
  simpa using h j (List.mem_range.mp hj)

/-- With pairwise distinct names, the name at index `i` is mapped to the value at `i`. -/
theorem lookup_pairs_some (names : Nat → String) (vals : Nat → β) (n : Nat)
    (hdistinct : ∀ i < n, ∀ j < n, names i = names j → i = j) (k : Nat) (hk : k ≤ n)
    (i : Nat) (hi : i < k) :
    ((List.range k).map (fun j => (names j, vals j))).lookup (names i) = some (vals i) := by
  induction k with
  | zero => omega
  | succ k ih =>
    rw [List.range_succ, List.map_append, List.lookup_append]
    by_cases hik : i < k
    · rw [ih (by omega) hik]; rfl
    · have hieq : i = k := by omega
      subst hieq
      rw [lookup_pairs_none names vals i (names i) (fun j hj e =>
        absurd (hdistinct i (by omega) j (by omega) e) (by omega))]
      simp

/-- Emplacing under a key that is not present appends the entry. -/
theorem emplace_fresh (result : List (String × β)) (k : String) (v : β)
    (h : result.lookup k = none) : emplace result k v = result ++ [(k, v)] := by
  simp [emplace, h]

/-- The loop of the two introspection methods on an artifact whose entry points answer
without changing its memory: every index adds its entry, and two calls to the trace. -/
theorem forLoop_emplace (symA symB : String) (fA : Nat → σ → Int × String × σ)
    (fB : Nat → σ → Int × β × σ) (s : σ) (n : Nat) (names : Nat → String) (vals : Nat → β)
    (hA : ∀ i < n, fA i s = (0, names i, s)) (hB : ∀ i < n, fB i s = (0, vals i, s))
    (hdistinct : ∀ i < n, ∀ j < n, names i = names j → i = j)
    (m k : Nat) (hkm : k + m ≤ n) (tr : List (CallRecord T)) :
    forLoop (fun i result =>
        Op.andThen (AOTI_RUNTIME_ERROR_CODE_CHECK symA (Args.index i) (fA i)) (fun name =>
          Op.andThen (AOTI_RUNTIME_ERROR_CODE_CHECK symB (Args.index i) (fB i)) (fun v =>
            Op.ret (emplace result name v))))
        (List.range' k m) ((List.range k).map (fun j => (names j, vals j)))
        { artifact := s, trace := tr } =
      (.ok ((List.range (k + m)).map (fun j => (names j, vals j))),
        { artifact := s,
          trace := tr ++ (List.range' k m).flatMap (fun i =>
            [⟨symA, Args.index i, 0⟩, ⟨symB, Args.index i, 0⟩]) }) := by
  induction m generalizing k tr with
  | zero => simp [forLoop, Op.ret]
  | succ m ih =>
    have hk : k < n := by omega
    have hnone := lookup_pairs_none names vals k (names k) (fun j hj e =>
      absurd (hdistinct k hk j (by omega) e) (by omega))
    rw [List.range'_succ]
    simp only [forLoop, Op.andThen, AOTI_RUNTIME_ERROR_CODE_CHECK, callEntry,
      AOTI_RUNTIME_SUCCESS, hA k hk, hB k hk, ne_eq, not_true_eq_false, if_false, Op.ret,
      emplace_fresh _ _ _ hnone]
    have hacc : (List.range k).map (fun j => (names j, vals j)) ++ [(names k, vals k)] =
        (List.range (k + 1)).map (fun j => (names j, vals j)) := by
      rw [List.range_succ, List.map_append]; rfl
    rw [hacc, ih (k + 1) (by omega)]
    simp [List.flatMap_cons, Nat.add_assoc, Nat.add_comm 1 m]


/-- What the two-call introspection pattern computes on an artifact that answers without
changing its memory. -/
theorem introspection_loop (symN symA symB : String) (fN : σ → Int × Nat × σ)
    (fA : Nat → σ → Int × String × σ) (fB : Nat → σ → Int × β × σ) (w : World σ T) (n : Nat)
    (names : Nat → String) (vals : Nat → β)
    (hN : fN w.artifact = (0, n, w.artifact))
    (hA : ∀ i < n, fA i w.artifact = (0, names i, w.artifact))
    (hB : ∀ i < n, fB i w.artifact = (0, vals i, w.artifact))
    (hdistinct : ∀ i < n, ∀ j < n, names i = names j → i = j) :
    Op.andThen (AOTI_RUNTIME_ERROR_CODE_CHECK symN Args.handle fN) (fun num_constants =>
        forLoop (fun i result =>
          Op.andThen (AOTI_RUNTIME_ERROR_CODE_CHECK symA (Args.index i) (fA i)) (fun name =>
            Op.andThen (AOTI_RUNTIME_ERROR_CODE_CHECK symB (Args.index i) (fB i)) (fun v =>
              Op.ret (emplace result name v))))
          (List.range num_constants) []) w =
      (.ok ((List.range n).map (fun j => (names j, vals j))),
        { artifact := w.artifact,
          trace := w.trace ++ ⟨symN, Args.handle, 0⟩ :: (List.range n).flatMap (fun i =>
            [⟨symA, Args.index i, 0⟩, ⟨symB, Args.index i, 0⟩]) }) := by
  have h := forLoop_emplace symA symB fA fB w.artifact n names vals hA hB hdistinct n 0
    (by omega) (w.trace ++ [⟨symN, Args.handle, 0⟩])
  simp only [List.range_zero, List.map_nil, Nat.zero_add, ← List.range_eq_range'] at h
  simp only [Op.andThen, AOTI_RUNTIME_ERROR_CODE_CHECK, callEntry, AOTI_RUNTIME_SUCCESS, hN,
    ne_eq, not_true_eq_false, if_false, h]
  simp

/-- C13: on a container that reports `n` constants with pairwise distinct names and whose
introspection entry points answer without changing the artifact memory,
`getConstantNamesToOriginalFQNs` returns a mapping with exactly `n` entries, keyed by the
names in index order, in which the name at index `i` maps to the original name at index `i`,
and `getConstantNamesToDtypes` does the same with the dtype at index `i`; both leave the
artifact memory as it was and call only the count, name and original-name (respectively
dtype) entry points. -/
theorem constant_introspection (r : AOTIModelContainerRunner σ C T) (w : World σ T)
    (n : Nat) (names originals : Nat → String) (dtypes : Nat → Int)
    (hnum : r.get_num_constants_func_.code r.container_handle_ w.artifact =
      (0, n, w.artifact))
    (hname : ∀ i < n, r.get_constant_name_func_.code r.container_handle_ i w.artifact =
      (0, names i, w.artifact))
    (horiginal : ∀ i < n,
      r.get_constant_original_fqn_func_.code r.container_handle_ i w.artifact =
        (0, originals i, w.artifact))
    (hdtype : ∀ i < n, r.get_constant_dtype_func_.code r.container_handle_ i w.artifact =
      (0, dtypes i, w.artifact))
    (hdistinct : ∀ i < n, ∀ j < n, names i = names j → i = j) :
    (∃ result, (r.getConstantNamesToOriginalFQNs w).1 = .ok result ∧
      result.length = n ∧
      result.map Prod.fst = (List.range n).map names ∧
      ∀ i < n, result.lookup (names i) = some (originals i)) ∧
    (∃ result, (r.getConstantNamesToDtypes w).1 = .ok result ∧
      result.length = n ∧
      result.map Prod.fst = (List.range n).map names ∧
      ∀ i < n, result.lookup (names i) = some (dtypes i)) ∧
    (r.getConstantNamesToOriginalFQNs w).2.artifact = w.artifact ∧
    (r.getConstantNamesToDtypes w).2.artifact = w.artifact ∧
    (∀ c ∈ newCalls w (r.getConstantNamesToOriginalFQNs w).2,
      c.symbol = r.get_num_constants_func_.symbol ∨
      c.symbol = r.get_constant_name_func_.symbol ∨
      c.symbol = r.get_constant_original_fqn_func_.symbol) ∧
    (∀ c ∈ newCalls w (r.getConstantNamesToDtypes w).2,
      c.symbol = r.get_num_constants_func_.symbol ∨
      c.symbol = r.get_constant_name_func_.symbol ∨
      c.symbol = r.get_constant_dtype_func_.symbol) := by
  have h1 : r.getConstantNamesToOriginalFQNs w = _ :=
    introspection_loop r.get_num_constants_func_.symbol r.get_constant_name_func_.symbol
      r.get_constant_original_fqn_func_.symbol _ _ _ w n names originals hnum hname horiginal
      hdistinct
  have h2 : r.getConstantNamesToDtypes w = _ :=
    introspection_loop r.get_num_constants_func_.symbol r.get_constant_name_func_.symbol
      r.get_constant_dtype_func_.symbol _ _ _ w n names dtypes hnum hname hdtype hdistinct
  rw [h1, h2]
  refine ⟨⟨_, rfl, by simp, by simp, fun i hi =>
      lookup_pairs_some names originals n hdistinct n (Nat.le_refl n) i hi⟩,
    ⟨_, rfl, by simp, by simp, fun i hi =>
      lookup_pairs_some names dtypes n hdistinct n (Nat.le_refl n) i hi⟩, rfl, rfl, ?_, ?_⟩
  · intro c hc
    rw [newCalls_append _ _ _ rfl] at hc
    simp only [List.mem_cons, List.mem_flatMap, List.mem_range, List.mem_singleton,
      List.not_mem_nil, or_false] at hc
    rcases hc with rfl | ⟨i, _, rfl | rfl⟩ <;> simp
  · intro c hc
    rw [newCalls_append _ _ _ rfl] at hc
    simp only [List.mem_cons, List.mem_flatMap, List.mem_range, List.mem_singleton,
      List.not_mem_nil, or_false] at hc
    rcases hc with rfl | ⟨i, _, rfl | rfl⟩ <;> simp

/-- Witness for C13: the two constants of the example artifact. -/
theorem constant_introspection_witness :
    (∃ result, ((exampleRunner false).getConstantNamesToOriginalFQNs (exampleWorld false)).1 =
        .ok result ∧
      result.length = 2 ∧
      result.map Prod.fst = (List.range 2).map exampleNames ∧
      ∀ i < 2, result.lookup (exampleNames i) = some (exampleOriginals i)) ∧
    (∃ result, ((exampleRunner false).getConstantNamesToDtypes (exampleWorld false)).1 =
        .ok result ∧
      result.length = 2 ∧
      result.map Prod.fst = (List.range 2).map exampleNames ∧
      ∀ i < 2, result.lookup (exampleNames i) = some (exampleDtypes i)) ∧
    ((exampleRunner false).getConstantNamesToOriginalFQNs (exampleWorld false)).2.artifact =
      (exampleWorld false).artifact ∧
    ((exampleRunner false).getConstantNamesToDtypes (exampleWorld false)).2.artifact =
      (exampleWorld false).artifact ∧
    (∀ c ∈ newCalls (exampleWorld false)
        ((exampleRunner false).getConstantNamesToOriginalFQNs (exampleWorld false)).2,
      c.symbol = (exampleRunner false).get_num_constants_func_.symbol ∨
      c.symbol = (exampleRunner false).get_constant_name_func_.symbol ∨
      c.symbol = (exampleRunner false).get_constant_original_fqn_func_.symbol) ∧
    (∀ c ∈ newCalls (exampleWorld false)
        ((exampleRunner false).getConstantNamesToDtypes (exampleWorld false)).2,
      c.symbol = (exampleRunner false).get_num_constants_func_.symbol ∨
      c.symbol = (exampleRunner false).get_constant_name_func_.symbol ∨
      c.symbol = (exampleRunner false).get_constant_dtype_func_.symbol) :=
  constant_introspection (exampleRunner false) (exampleWorld false) 2 exampleNames
    exampleOriginals exampleDtypes rfl
    (by intro i hi; interval_cases i <;> rfl)
    (by intro i hi; interval_cases i <;> rfl)
    (by intro i hi; interval_cases i <;> rfl)
    (by decide)

end Introspection

/-! ## What is fixed at construction -/

section Fixed

variable {σ C T α β : Type}

/-- A plain return traces nothing. -/
theorem tracesOnly_ret (P : CallRecord T → Prop) (a : α) :
    TracesOnly P (Op.ret a : Op σ T α) :=
  fun w => ⟨[], by simp [Op.ret], by simp⟩

/-- A throw traces nothing. -/
theorem tracesOnly_raise (P : CallRecord T → Prop) (e : RunnerError) :
    TracesOnly P (Op.raise e : Op σ T α) :=
  fun w => ⟨[], by simp [Op.raise], by simp⟩

/-- A checked call traces its own record only. -/
theorem tracesOnly_check (P : CallRecord T → Prop) (symbol : String) (args : Args T)
    (hP : ∀ status, P ⟨symbol, args, status⟩) (body : σ → Int × α × σ) :
    TracesOnly P (AOTI_RUNTIME_ERROR_CODE_CHECK symbol args body) := by
  intro w
  refine ⟨[⟨symbol, args, (body w.artifact).1⟩], ?_, by simpa using hP _⟩
  unfold AOTI_RUNTIME_ERROR_CODE_CHECK callEntry
  by_cases h : (body w.artifact).1 = AOTI_RUNTIME_SUCCESS <;> simp [h]

/-- What is traced composes along sequencing. -/
theorem tracesOnly_andThen {P : CallRecord T → Prop} {m : Op σ T α} {f : α → Op σ T β}
    (hm : TracesOnly P m) (hf : ∀ a, TracesOnly P (f a)) : TracesOnly P (Op.andThen m f) := by
  intro w
  obtain ⟨calls, htr, hS⟩ := hm w
  unfold Op.andThen
  rcases h : m w with ⟨res, w1⟩
  rw [h] at htr
  cases res with
  | error e => exact ⟨calls, htr, hS⟩
  | ok a =>
    obtain ⟨calls2, htr2, hS2⟩ := hf a w1
    refine ⟨calls ++ calls2, by simp only at htr ⊢; rw [htr2, htr, List.append_assoc], ?_⟩
    intro c hc
    rcases List.mem_append.mp hc with hc | hc
    · exact hS c hc
    · exact hS2 c hc

/-- A loop traces what its body traces. -/
theorem tracesOnly_forLoop {P : CallRecord T → Prop} {body : Nat → β → Op σ T β}
    (hbody : ∀ i b, TracesOnly P (body i b)) (idxs : List Nat) (b : β) :
    TracesOnly P (forLoop body idxs b) := by
  induction idxs generalizing b with
  | nil => exact tracesOnly_ret P b
  | cons i rest ih => exact tracesOnly_andThen (hbody i b) ih

/-- Mapping the returned value traces nothing more. -/
theorem tracesOnly_mapResult {P : CallRecord T → Prop} {m : Op σ T α} (f : α → β)
    (hm : TracesOnly P m) : TracesOnly P (Op.mapResult f m) :=
  tracesOnly_andThen hm (fun a => tracesOnly_ret P (f a))

/-- Every call of every operation of a constructed runner is well formed. -/
theorem tracesOnly_step [Inhabited T] {r : AOTIModelContainerRunner σ C T}
    {lib : DynamicLibrary σ C T} {single : Bool} (hres : ResolvedFrom r lib single)
    (op : Operation T) : TracesOnly (WellFormedCall r single) (r.step op) := by
  obtain ⟨-, -, -, -, -, hout, -, hrun, -, hnum, -, hname, -, hfqn, -, hdtype, -, hupd, -,
    hupdi, -, hfold, -, hswap, -, hspec, hfree⟩ := hres
  have hmem : ∀ name, name ∈ mandatorySymbols single → name ∈ resolvedSymbols single :=
    fun name h => List.mem_append_left _ h
  have hout' : r.get_num_outputs_func_.symbol ∈ resolvedSymbols single := by
    rw [hout]; exact hmem _ (by simp [mandatorySymbols])
  have hrun' : r.run_func_.symbol ∈ resolvedSymbols single := by
    rw [hrun]; exact hmem _ (by cases single <;> simp [mandatorySymbols])
  have hnum' : r.get_num_constants_func_.symbol ∈ resolvedSymbols single := by
    rw [hnum]; exact hmem _ (by simp [mandatorySymbols])
  have hname' : r.get_constant_name_func_.symbol ∈ resolvedSymbols single := by
    rw [hname]; exact hmem _ (by simp [mandatorySymbols])
  have hfqn' : r.get_constant_original_fqn_func_.symbol ∈ resolvedSymbols single := by
    rw [hfqn]; exact hmem _ (by simp [mandatorySymbols])
  have hdtype' : r.get_constant_dtype_func_.symbol ∈ resolvedSymbols single := by
    rw [hdtype]; exact hmem _ (by simp [mandatorySymbols])
  have hupd' : r.update_constant_buffer_func_.symbol ∈ resolvedSymbols single := by
    rw [hupd]; exact hmem _ (by simp [mandatorySymbols])
  have hupdi' : r.update_inactive_constant_buffer_func_.symbol ∈ resolvedSymbols single := by
    rw [hupdi]; exact hmem _ (by simp [mandatorySymbols])
  have hfold' : r.run_const_fold_func_.symbol ∈ resolvedSymbols single := by
    rw [hfold]; exact hmem _ (by simp [mandatorySymbols])
  have hswap' : r.swap_constant_buffer_func_.symbol ∈ resolvedSymbols single := by
    rw [hswap]; exact hmem _ (by simp [mandatorySymbols])
  have hspec' : r.get_call_spec_func_.symbol ∈ resolvedSymbols single := by
    rw [hspec]; exact hmem _ (by simp [mandatorySymbols])
  have hplain : ∀ (symbol : String) (args : Args T),
      symbol ∈ resolvedSymbols single →
      (CallRecord.proxyPassed ⟨symbol, args, 0⟩ = none) →
      ∀ status, WellFormedCall r single ⟨symbol, args, status⟩ := by
    intro symbol args hs hp status
    refine ⟨hs, fun p hpp => ?_⟩
    have : CallRecord.proxyPassed (⟨symbol, args, status⟩ : CallRecord T) = none := hp
    rw [this] at hpp
    cases hpp
  have hproxy : ∀ (symbol : String) (args : Args T),
      symbol ∈ resolvedSymbols single →
      (CallRecord.proxyPassed ⟨symbol, args, 0⟩ = some r.proxy_executor_handle_) →
      ∀ status, WellFormedCall r single ⟨symbol, args, status⟩ := by
    intro symbol args hs hp status
    refine ⟨hs, fun p hpp => ?_⟩
    have : CallRecord.proxyPassed (⟨symbol, args, status⟩ : CallRecord T) =
        some r.proxy_executor_handle_ := hp
    rw [this] at hpp
    injection hpp with hpp
    exact hpp.symm
  have hrun_impl : ∀ hs s, TracesOnly (WellFormedCall r single) (r.run_impl hs s) := by
    intro hs s
    unfold AOTIModelContainerRunner.run_impl
    simp only [Op.bind_eq, Op.pure_eq]
    refine tracesOnly_andThen (tracesOnly_check _ _ _ (hplain _ _ hout' ?_) _) (fun _ =>
      tracesOnly_andThen (tracesOnly_check _ _ _ (hproxy _ _ hrun' ?_) _)
        (fun _ => tracesOnly_ret _ _))
    all_goals rfl
  cases op with
  | run inputs stream_handle => exact tracesOnly_mapResult _ (hrun_impl _ _)
  | boxed_run inputs stream_handle => exact tracesOnly_mapResult _ (hrun_impl _ _)
  | getConstantNamesToOriginalFQNs =>
    unfold AOTIModelContainerRunner.step AOTIModelContainerRunner.getConstantNamesToOriginalFQNs
    simp only [Op.bind_eq, Op.pure_eq]
    refine tracesOnly_mapResult _ (tracesOnly_andThen
      (tracesOnly_check _ _ _ (hplain _ _ hnum' ?_) _)
      (fun _ => tracesOnly_forLoop (fun _ _ =>
        tracesOnly_andThen (tracesOnly_check _ _ _ (hplain _ _ hname' ?_) _) (fun _ =>
          tracesOnly_andThen (tracesOnly_check _ _ _ (hplain _ _ hfqn' ?_) _)
            (fun _ => tracesOnly_ret _ _))) _ _))
    all_goals rfl
  | getConstantNamesToDtypes =>
    unfold AOTIModelContainerRunner.step AOTIModelContainerRunner.getConstantNamesToDtypes
    simp only [Op.bind_eq, Op.pure_eq]
    refine tracesOnly_mapResult _ (tracesOnly_andThen
      (tracesOnly_check _ _ _ (hplain _ _ hnum' ?_) _)
      (fun _ => tracesOnly_forLoop (fun _ _ =>
        tracesOnly_andThen (tracesOnly_check _ _ _ (hplain _ _ hname' ?_) _) (fun _ =>
          tracesOnly_andThen (tracesOnly_check _ _ _ (hplain _ _ hdtype' ?_) _)
            (fun _ => tracesOnly_ret _ _))) _ _))
    all_goals rfl
  | update_constant_buffer m u k =>
    unfold AOTIModelContainerRunner.step AOTIModelContainerRunner.update_constant_buffer
    refine tracesOnly_mapResult _ (tracesOnly_check _ _ _ (hplain _ _ hupd' ?_) _)
    rfl
  | update_constant_buffer_tensor_map m u k =>
    unfold AOTIModelContainerRunner.step
      AOTIModelContainerRunner.update_constant_buffer_tensor_map
    refine tracesOnly_mapResult _ (tracesOnly_check _ _ _ (hplain _ _ hupd' ?_) _)
    rfl
  | update_inactive_constant_buffer m =>
    unfold AOTIModelContainerRunner.step
      AOTIModelContainerRunner.update_inactive_constant_buffer
    refine tracesOnly_mapResult _ (tracesOnly_check _ _ _ (hplain _ _ hupdi' ?_) _)
    rfl
  | run_const_fold u s =>
    unfold AOTIModelContainerRunner.step AOTIModelContainerRunner.run_const_fold
    refine tracesOnly_mapResult _ (tracesOnly_check _ _ _ (hproxy _ _ hfold' ?_) _)
    rfl
  | swap_constant_buffer =>
    unfold AOTIModelContainerRunner.step AOTIModelContainerRunner.swap_constant_buffer
    refine tracesOnly_mapResult _ (tracesOnly_check _ _ _ (hplain _ _ hswap' ?_) _)
    rfl
  | free_inactive_constant_buffer =>
    refine tracesOnly_mapResult _ ?_
    unfold AOTIModelContainerRunner.free_inactive_constant_buffer
    rw [hfree]
    cases lib.AOTInductorModelContainerFreeInactiveConstantBuffer with
    | none => exact tracesOnly_raise _ _
    | some f =>
      refine tracesOnly_check _ _ _ (hplain _ _ (by simp [resolvedSymbols]) ?_) _
      rfl
  | get_call_spec =>
    unfold AOTIModelContainerRunner.step AOTIModelContainerRunner.get_call_spec
    simp only [Op.bind_eq, Op.pure_eq]
    refine tracesOnly_mapResult _ (tracesOnly_andThen
      (tracesOnly_check _ _ _ (hplain _ _ hspec' ?_) _) (fun _ => tracesOnly_ret _ _))
    rfl


/-- The proxy-executor handle of a runner the constructor returned. -/
theorem ctor_ok_proxy {host : Host σ C T} {lib : DynamicLibrary σ C T} {path : String}
    {n : Nat} {dev cubin : String} {single : Bool} {w w' : World σ T}
    {r : AOTIModelContainerRunner σ C T} (hopen : host.dlopen path = some lib)
    (hctor : AOTIModelContainerRunner.ctor host path n dev cubin single w = (.ok r, w')) :
    r.proxy_executor_handle_ =
      (if host.file_exists (json_filename path) then
        some ⟨json_filename path, dev == "cpu"⟩ else none) := by
  rcases ctor_cases host lib path n dev cubin single w hopen with
    ⟨name, _, _, h⟩ | ⟨_, create, _, res, _, ⟨_, h⟩ | ⟨_, r', h, _, _, hproxy⟩⟩
  · rw [h] at hctor; cases hctor
  · rw [h] at hctor; cases hctor
  · rw [h] at hctor; cases hctor; exact hproxy

/-- C15: for a runner the constructor returned, the proxy-executor handle is null exactly
when the sidecar file did not exist at construction, and otherwise refers to the executor
built there from the sidecar path; operations receive the runner unchanged, and every call
they make that passes a proxy-executor handle to the artifact (the run entry point of `run`
and `boxed_run`, the constant-folding entry point of `run_const_fold`) passes that very
handle. Those calls are made: `run_const_fold` makes exactly one call, to the
constant-folding entry point with that handle, and `run`, once the output count was read,
makes exactly one further call, to the run entry point with that handle; `boxed_run` is the
same operation as `run`. -/
theorem proxy_executor_handle_fixed [Inhabited T]
    (host : Host σ C T) (lib : DynamicLibrary σ C T) (model_so_path : String)
    (num_models : Nat) (device_str cubin_dir : String) (run_single_threaded : Bool)
    (w0 w0' : World σ T) (r : AOTIModelContainerRunner σ C T)
    (hopen : host.dlopen model_so_path = some lib)
    (hctor : AOTIModelContainerRunner.ctor host model_so_path num_models device_str cubin_dir
      run_single_threaded w0 = (.ok r, w0'))
    (op : Operation T) (inputs : List T) (stream_handle : StreamHandle)
    (use_inactive : Bool) (cuda_stream_handle : StreamHandle) (w : World σ T) :
    (r.proxy_executor_handle_ = none ↔
      host.file_exists (json_filename model_so_path) = false) ∧
    (host.file_exists (json_filename model_so_path) = true →
      r.proxy_executor_handle_ =
        some ⟨json_filename model_so_path, device_str == "cpu"⟩) ∧
    (∀ c ∈ newCalls w (r.step op w).2, ∀ p, c.proxyPassed = some p →
      p = r.proxy_executor_handle_) ∧
    newCalls w (r.run_const_fold use_inactive cuda_stream_handle w).2 =
      [⟨r.run_const_fold_func_.symbol,
        Args.const_fold use_inactive cuda_stream_handle r.proxy_executor_handle_,
        (r.run_const_fold_func_.code r.container_handle_ use_inactive cuda_stream_handle
          r.proxy_executor_handle_ w.artifact).1⟩] ∧
    (r.run_const_fold use_inactive cuda_stream_handle w).2.artifact =
      (r.run_const_fold_func_.code r.container_handle_ use_inactive cuda_stream_handle
        r.proxy_executor_handle_ w.artifact).2 ∧
    ((r.get_num_outputs_func_.code r.container_handle_ w.artifact).1 = 0 →
      newCalls w (r.run inputs stream_handle w).2 =
        [⟨r.get_num_outputs_func_.symbol, Args.handle, 0⟩,
         ⟨r.run_func_.symbol,
          Args.run (unsafe_alloc_new_handles_from_tensors inputs) inputs.length
            (r.get_num_outputs_func_.code r.container_handle_ w.artifact).2.1
            stream_handle r.proxy_executor_handle_,
          (r.run_func_.code r.container_handle_
            (unsafe_alloc_new_handles_from_tensors inputs) inputs.length
            (r.get_num_outputs_func_.code r.container_handle_ w.artifact).2.1 stream_handle
            r.proxy_executor_handle_
            (r.get_num_outputs_func_.code r.container_handle_ w.artifact).2.2).1⟩] ∧
      (r.run inputs stream_handle w).2.artifact =
        (r.run_func_.code r.container_handle_
          (unsafe_alloc_new_handles_from_tensors inputs) inputs.length
          (r.get_num_outputs_func_.code r.container_handle_ w.artifact).2.1 stream_handle
          r.proxy_executor_handle_
          (r.get_num_outputs_func_.code r.container_handle_ w.artifact).2.2).2.2 ∧
      (r.boxed_run inputs stream_handle).1 w = r.run inputs stream_handle w) := by
  have hproxy := ctor_ok_proxy hopen hctor
  refine ⟨?_, ?_, ?_, ?_, ?_, ?_⟩
  · rw [hproxy]
    cases host.file_exists (json_filename model_so_path) <;> simp
  · intro h
    rw [hproxy, if_pos h]
  · obtain ⟨calls, htr, hP⟩ := tracesOnly_step (ctor_ok_resolved hopen hctor) op w
    rw [newCalls_append _ _ _ htr]
    intro c hc
    exact (hP c hc).2
  · apply newCalls_append
    unfold AOTIModelContainerRunner.run_const_fold AOTI_RUNTIME_ERROR_CODE_CHECK callEntry
      noOut
    by_cases hst : (r.run_const_fold_func_.code r.container_handle_ use_inactive
      cuda_stream_handle r.proxy_executor_handle_ w.artifact).1 = 0
    · simp [hst, AOTI_RUNTIME_SUCCESS]
    · simp [hst, AOTI_RUNTIME_SUCCESS]
  · unfold AOTIModelContainerRunner.run_const_fold AOTI_RUNTIME_ERROR_CODE_CHECK callEntry
      noOut
    by_cases hst : (r.run_const_fold_func_.code r.container_handle_ use_inactive
      cuda_stream_handle r.proxy_executor_handle_ w.artifact).1 = 0
    · simp [hst, AOTI_RUNTIME_SUCCESS]
    · simp [hst, AOTI_RUNTIME_SUCCESS]
  · intro h0
    have hworld : (r.run inputs stream_handle w).2 =
        { artifact := (r.run_func_.code r.container_handle_
            (unsafe_alloc_new_handles_from_tensors inputs) inputs.length
            (r.get_num_outputs_func_.code r.container_handle_ w.artifact).2.1 stream_handle
            r.proxy_executor_handle_
            (r.get_num_outputs_func_.code r.container_handle_ w.artifact).2.2).2.2,
          trace := w.trace ++
            [⟨r.get_num_outputs_func_.symbol, Args.handle, 0⟩,
             ⟨r.run_func_.symbol,
              Args.run (unsafe_alloc_new_handles_from_tensors inputs) inputs.length
                (r.get_num_outputs_func_.code r.container_handle_ w.artifact).2.1
                stream_handle r.proxy_executor_handle_,
              (r.run_func_.code r.container_handle_
                (unsafe_alloc_new_handles_from_tensors inputs) inputs.length
                (r.get_num_outputs_func_.code r.container_handle_ w.artifact).2.1
                stream_handle r.proxy_executor_handle_
                (r.get_num_outputs_func_.code r.container_handle_ w.artifact).2.2).1⟩] } := by
      unfold AOTIModelContainerRunner.run AOTIModelContainerRunner.run_impl
      simp only [Op.bind_eq, Op.pure_eq, Op.andThen, AOTI_RUNTIME_ERROR_CODE_CHECK, callEntry,
        AOTI_RUNTIME_SUCCESS, h0, ne_eq, not_true_eq_false, if_false, List.length_replicate,
        List.length_map, unsafe_alloc_new_handles_from_tensors]
      by_cases hst : (r.run_func_.code r.container_handle_ (List.map some inputs)
          inputs.length (r.get_num_outputs_func_.code r.container_handle_ w.artifact).2.1
          stream_handle r.proxy_executor_handle_
          (r.get_num_outputs_func_.code r.container_handle_ w.artifact).2.2).1 = 0
      · simp [hst, Op.ret]
      · simp [hst]
    refine ⟨newCalls_append _ _ _ (by rw [hworld]), by rw [hworld], rfl⟩

/-- The other run symbol is not among the symbols a runner resolves. -/
theorem otherRunSymbol_not_resolved (single : Bool) :
    otherRunSymbol single ∉ resolvedSymbols single := by
  cases single <;> decide

/-- Two pointers resolved from the same export under the same name are the same pointer. -/
theorem fnPtr_eq_of_resolved {F : Type} (p q : FnPtr F) (x : Option F) (name : String)
    (hp : x = some p.code) (hps : p.symbol = name) (hq : x = some q.code)
    (hqs : q.symbol = name) : q = p := by
  cases p; cases q
  simp only at hp hps hq hqs
  subst hps hqs
  rw [hp] at hq
  injection hq with hq
  subst hq
  rfl

/-- Runners resolved from two modules that differ in the optional export only differ in the
optional pointer only. -/
theorem resolvedFrom_free_only {r r' : AOTIModelContainerRunner σ C T}
    {lib : DynamicLibrary σ C T} {single : Bool} (x : Option (HandleFn σ C))
    (h : ResolvedFrom r lib single)
    (h' : ResolvedFrom r' { lib with AOTInductorModelContainerFreeInactiveConstantBuffer := x }
      single)
    (hhandle : r'.container_handle_ = r.container_handle_)
    (hproxy : r'.proxy_executor_handle_ = r.proxy_executor_handle_) :
    r' = { r with
      free_inactive_constant_buffer_func_ := r'.free_inactive_constant_buffer_func_ } := by
  obtain ⟨a1, b1, a2, b2, a3, b3, a4, b4, a5, b5, a6, b6, a7, b7, a8, b8, a9, b9, a10, b10,
    a11, b11, a12, b12, a13, b13, -⟩ := h
  obtain ⟨c1, d1, c2, d2, c3, d3, c4, d4, c5, d5, c6, d6, c7, d7, c8, d8, c9, d9, c10, d10,
    c11, d11, c12, d12, c13, d13, -⟩ := h'
  have e1 := fnPtr_eq_of_resolved _ _ _ _ a1 b1 c1 d1
  have e2 := fnPtr_eq_of_resolved _ _ _ _ a2 b2 c2 d2
  have e3 := fnPtr_eq_of_resolved _ _ _ _ a3 b3 c3 d3
  have e4 : r'.run_func_ = r.run_func_ := by
    cases single
    · exact fnPtr_eq_of_resolved _ _ _ _ a4 b4 c4 d4
    · exact fnPtr_eq_of_resolved _ _ _ _ a4 b4 c4 d4
  have e5 := fnPtr_eq_of_resolved _ _ _ _ a5 b5 c5 d5
  have e6 := fnPtr_eq_of_resolved _ _ _ _ a6 b6 c6 d6
  have e7 := fnPtr_eq_of_resolved _ _ _ _ a7 b7 c7 d7
  have e8 := fnPtr_eq_of_resolved _ _ _ _ a8 b8 c8 d8
  have e9 := fnPtr_eq_of_resolved _ _ _ _ a9 b9 c9 d9
  have e10 := fnPtr_eq_of_resolved _ _ _ _ a10 b10 c10 d10
  have e11 := fnPtr_eq_of_resolved _ _ _ _ a11 b11 c11 d11
  have e12 := fnPtr_eq_of_resolved _ _ _ _ a12 b12 c12 d12
  have e13 := fnPtr_eq_of_resolved _ _ _ _ a13 b13 c13 d13
  cases r; cases r'
  simp only at e1 e2 e3 e4 e5 e6 e7 e8 e9 e10 e11 e12 e13 hhandle hproxy
  simp only [e1, e2, e3, e4, e5, e6, e7, e8, e9, e10, e11, e12, e13, hhandle, hproxy]

/-- Apart from `free_inactive_constant_buffer`, no operation looks at the optional pointer. -/
theorem step_ignores_free [Inhabited T] (r : AOTIModelContainerRunner σ C T)
    (x : Option (FnPtr (HandleFn σ C))) (op : Operation T)
    (hop : op ≠ .free_inactive_constant_buffer) :
    ({ r with free_inactive_constant_buffer_func_ := x } :
      AOTIModelContainerRunner σ C T).step op = r.step op := by
  cases op <;> first | rfl | exact absurd rfl hop

/-- Adding or removing the optional export does not change what else is exported. -/
theorem exports_free_irrelevant (lib : DynamicLibrary σ C T) (x : Option (HandleFn σ C))
    (name : String) (h : name ≠ "AOTInductorModelContainerFreeInactiveConstantBuffer") :
    ({ lib with AOTInductorModelContainerFreeInactiveConstantBuffer := x } :
      DynamicLibrary σ C T).exports name = lib.exports name := by
  simp only [DynamicLibrary.exports, h, if_false]

/-- The optional symbol is not among the mandatory ones. -/
theorem free_not_mandatory (single : Bool) :
    "AOTInductorModelContainerFreeInactiveConstantBuffer" ∉ mandatorySymbols single := by
  cases single <;> decide

/-- C17: when the module exports every symbol resolved with `LOAD_SYMBOL` but not the
optional one and create returns zero, construction succeeds and the optional pointer is
null; the same module with the optional symbol added constructs, from the same world, a
runner that differs in that pointer only, and every operation other than
`free_inactive_constant_buffer` is the same function of the world for both. -/
theorem optional_symbol_not_fatal [Inhabited T]
    (host host' : Host σ C T) (lib : DynamicLibrary σ C T) (free : HandleFn σ C)
    (model_so_path : String) (num_models : Nat) (device_str cubin_dir : String)
    (run_single_threaded : Bool) (w : World σ T)
    (hopen : host.dlopen model_so_path = some lib)
    (hall : ∀ name ∈ mandatorySymbols run_single_threaded, lib.exports name = true)
    (hfree : lib.exports "AOTInductorModelContainerFreeInactiveConstantBuffer" = false)
    (hcreate : ∀ create, lib.AOTInductorModelContainerCreateWithDevice = some create →
      (create num_models device_str (if cubin_dir.isEmpty then none else some cubin_dir)
        w.artifact).1 = 0)
    (hopen' : host'.dlopen model_so_path = some
      { lib with AOTInductorModelContainerFreeInactiveConstantBuffer := some free })
    (hfiles : host'.file_exists = host.file_exists) :
    ∃ r r' w',
      AOTIModelContainerRunner.ctor host model_so_path num_models device_str cubin_dir
        run_single_threaded w = (.ok r, w') ∧
      r.free_inactive_constant_buffer_func_ = none ∧
      AOTIModelContainerRunner.ctor host' model_so_path num_models device_str cubin_dir
        run_single_threaded w = (.ok r', w') ∧
      r'.free_inactive_constant_buffer_func_ =
        some ⟨"AOTInductorModelContainerFreeInactiveConstantBuffer", free⟩ ∧
      ∀ op, op ≠ .free_inactive_constant_buffer → r.step op = r'.step op := by
  have hnone : lib.AOTInductorModelContainerFreeInactiveConstantBuffer = none := by
    have : lib.AOTInductorModelContainerFreeInactiveConstantBuffer.isSome = false := hfree
    cases h : lib.AOTInductorModelContainerFreeInactiveConstantBuffer with
    | none => rfl
    | some f => rw [h] at this; cases this
  rcases ctor_cases host lib model_so_path num_models device_str cubin_dir
    run_single_threaded w hopen with
    ⟨name, hmem, hfalse, _⟩ | ⟨_, create, hc, res, hres, ⟨hne, _⟩ | ⟨_, r, hctor, hr, hh, hp⟩⟩
  · rw [hall name hmem] at hfalse; cases hfalse
  · rw [hres] at hne
    exact absurd (hcreate create hc) hne
  rcases ctor_cases host' _ model_so_path num_models device_str cubin_dir
    run_single_threaded w hopen' with
    ⟨name, hmem, hfalse, _⟩ | ⟨_, create', hc', res', hres', ⟨hne, _⟩ | ⟨_, r', hctor', hr', hh', hp'⟩⟩
  · exfalso
    rw [exports_free_irrelevant lib _ name (fun e =>
      free_not_mandatory run_single_threaded (e ▸ hmem)), hall name hmem] at hfalse
    cases hfalse
  · have hcc : create' = create := by
      have : some create' = some create := hc'.symm.trans hc
      injection this
    subst hcc
    rw [hres'] at hne
    exact absurd (hcreate create' hc) hne
  · have hcc : create' = create := by
      have : some create' = some create := hc'.symm.trans hc
      injection this
    subst hcc
    have hww : res' = res := by rw [hres', hres]
    subst hww
    have hext := resolvedFrom_free_only (some free) hr hr' (by rw [hh', hh])
      (by rw [hp', hp, hfiles])
    refine ⟨r, r', res'.2.2, hctor, ?_, hctor', ?_, ?_⟩
    · rw [hr.2.2.2.2.2.2.2.2.2.2.2.2.2.2.2.2.2.2.2.2.2.2.2.2.2.2, hnone]; rfl
    · rw [hr'.2.2.2.2.2.2.2.2.2.2.2.2.2.2.2.2.2.2.2.2.2.2.2.2.2.2]; rfl
    · intro op hop
      rw [hext]
      exact (step_ignores_free r _ op hop).symm

/-- Witness for C15: the example artifact next to `model.json`; constant folding and a run on
the input `[5]` each pass the executor built from `model.json`. -/
theorem proxy_executor_handle_fixed_witness :
    (exampleProxyRunner.proxy_executor_handle_ = none ↔
      (hostOf (specLibrary (exampleDesc false) true) ["model.json"]).file_exists
        (json_filename "model.so") = false) ∧
    ((hostOf (specLibrary (exampleDesc false) true) ["model.json"]).file_exists
        (json_filename "model.so") = true →
      exampleProxyRunner.proxy_executor_handle_ =
        some ⟨json_filename "model.so", "cpu" == "cpu"⟩) ∧
    (∀ c ∈ newCalls (exampleWorld false)
        (exampleProxyRunner.step (.run_const_fold false 0) (exampleWorld false)).2,
      ∀ p, c.proxyPassed = some p → p = exampleProxyRunner.proxy_executor_handle_) ∧
    newCalls (exampleWorld false)
        (exampleProxyRunner.run_const_fold false 0 (exampleWorld false)).2 =
      [⟨"AOTInductorModelContainerRunConstantFolding",
        Args.const_fold false 0 (some ⟨"model.json", true⟩), 0⟩] ∧
    newCalls (exampleWorld false) (exampleProxyRunner.run [5] 0 (exampleWorld false)).2 =
      [⟨"AOTInductorModelContainerGetNumOutputs", Args.handle, 0⟩,
       ⟨"AOTInductorModelContainerRun",
        Args.run [some 5] 1 1 0 (some ⟨"model.json", true⟩), 0⟩] ∧
    (exampleProxyRunner.boxed_run [5] 0).1 (exampleWorld false) =
      exampleProxyRunner.run [5] 0 (exampleWorld false) :=
  ⟨(proxy_executor_handle_fixed (hostOf (specLibrary (exampleDesc false) true) ["model.json"])
      (specLibrary (exampleDesc false) true) "model.so" 1 "cpu" "" false (exampleWorld false) _
      exampleProxyRunner rfl
      (ctor_specLibrary (exampleDesc false) true false ["model.json"] "model.so" 1 "cpu" ""
        (exampleWorld false))
      (.run_const_fold false 0) [5] 0 false 0 (exampleWorld false)).1,
   (proxy_executor_handle_fixed (hostOf (specLibrary (exampleDesc false) true) ["model.json"])
      (specLibrary (exampleDesc false) true) "model.so" 1 "cpu" "" false (exampleWorld false) _
      exampleProxyRunner rfl
      (ctor_specLibrary (exampleDesc false) true false ["model.json"] "model.so" 1 "cpu" ""
        (exampleWorld false))
      (.run_const_fold false 0) [5] 0 false 0 (exampleWorld false)).2.1,
   (proxy_executor_handle_fixed (hostOf (specLibrary (exampleDesc false) true) ["model.json"])
      (specLibrary (exampleDesc false) true) "model.so" 1 "cpu" "" false (exampleWorld false) _
      exampleProxyRunner rfl
      (ctor_specLibrary (exampleDesc false) true false ["model.json"] "model.so" 1 "cpu" ""
        (exampleWorld false))
      (.run_const_fold false 0) [5] 0 false 0 (exampleWorld false)).2.2.1,
   (proxy_executor_handle_fixed (hostOf (specLibrary (exampleDesc false) true) ["model.json"])
      (specLibrary (exampleDesc false) true) "model.so" 1 "cpu" "" false (exampleWorld false) _
      exampleProxyRunner rfl
      (ctor_specLibrary (exampleDesc false) true false ["model.json"] "model.so" 1 "cpu" ""
        (exampleWorld false))
      (.run_const_fold false 0) [5] 0 false 0 (exampleWorld false)).2.2.2.1,
   ((proxy_executor_handle_fixed (hostOf (specLibrary (exampleDesc false) true) ["model.json"])
      (specLibrary (exampleDesc false) true) "model.so" 1 "cpu" "" false (exampleWorld false) _
      exampleProxyRunner rfl
      (ctor_specLibrary (exampleDesc false) true false ["model.json"] "model.so" 1 "cpu" ""
        (exampleWorld false))
      (.run_const_fold false 0) [5] 0 false 0 (exampleWorld false)).2.2.2.2.2 rfl).1,
   ((proxy_executor_handle_fixed (hostOf (specLibrary (exampleDesc false) true) ["model.json"])
      (specLibrary (exampleDesc false) true) "model.so" 1 "cpu" "" false (exampleWorld false) _
      exampleProxyRunner rfl
      (ctor_specLibrary (exampleDesc false) true false ["model.json"] "model.so" 1 "cpu" ""
        (exampleWorld false))
      (.run_const_fold false 0) [5] 0 false 0 (exampleWorld false)).2.2.2.2.2 rfl).2.2⟩

/-- Witness for C17: the example artifact built without, and with, the optional symbol. -/
theorem optional_symbol_not_fatal_witness :
    ∃ r r' w',
      AOTIModelContainerRunner.ctor (hostOf (specLibrary (exampleDesc false) false) [])
        "model.so" 1 "cpu" "" false (exampleWorld false) = (.ok r, w') ∧
      r.free_inactive_constant_buffer_func_ = none ∧
      AOTIModelContainerRunner.ctor (hostOf (specLibrary (exampleDesc false) true) [])
        "model.so" 1 "cpu" "" false (exampleWorld false) = (.ok r', w') ∧
      r'.free_inactive_constant_buffer_func_ =
        some ⟨"AOTInductorModelContainerFreeInactiveConstantBuffer",
          Container.free_inactive_constant_buffer⟩ ∧
      ∀ op, op ≠ .free_inactive_constant_buffer → r.step op = r'.step op :=
  optional_symbol_not_fatal (hostOf (specLibrary (exampleDesc false) false) [])
    (hostOf (specLibrary (exampleDesc false) true) []) (specLibrary (exampleDesc false) false)
    Container.free_inactive_constant_buffer "model.so" 1 "cpu" "" false (exampleWorld false)
    rfl (by decide) rfl (by intro create h; cases h; rfl) rfl rfl

end Fixed


/-! ## Updates are forwarded to the artifact -/

section Forwarding

variable {σ C T : Type}

/-- What `run` returns depends on the artifact memory only, not on the trace so far. -/
theorem run_result_congr [Inhabited T] (r : AOTIModelContainerRunner σ C T)
    (inputs : List T) (stream_handle : StreamHandle) (w1 w2 : World σ T)
    (h : w1.artifact = w2.artifact) :
    (r.run inputs stream_handle w1).1 = (r.run inputs stream_handle w2).1 := by
  unfold AOTIModelContainerRunner.run AOTIModelContainerRunner.run_impl
  simp only [Op.bind_eq, Op.pure_eq, Op.andThen, AOTI_RUNTIME_ERROR_CODE_CHECK, callEntry,
    AOTI_RUNTIME_SUCCESS, Op.ret, h]
  by_cases h1 : (r.get_num_outputs_func_.code r.container_handle_ w2.artifact).1 = 0
  · simp only [h1, ne_eq, not_true_eq_false, if_false]
    split_ifs <;> rfl
  · simp only [h1, ne_eq, not_false_eq_true, if_true]

/-- What `runOnSlot` returns depends on the artifact memory only. -/
theorem runOnSlot_result_congr [Inhabited T] (r : AOTIModelContainerRunner σ C T)
    (use_inactive : Bool) (inputs : List T) (stream_handle : StreamHandle)
    (w1 w2 : World σ T) (h : w1.artifact = w2.artifact) :
    (runOnSlot r use_inactive inputs stream_handle w1).1 =
      (runOnSlot r use_inactive inputs stream_handle w2).1 := by
  cases use_inactive with
  | false => exact run_result_congr r inputs stream_handle w1 w2 h
  | true =>
    simp only [runOnSlot, if_true, Op.andThen, AOTIModelContainerRunner.swap_constant_buffer,
      AOTI_RUNTIME_ERROR_CODE_CHECK, callEntry, AOTI_RUNTIME_SUCCESS, noOut, h]
    by_cases h1 : (r.swap_constant_buffer_func_.code r.container_handle_ w2.artifact).1 = 0
    · simp only [h1, ne_eq, not_true_eq_false, if_false]
      exact run_result_congr r inputs stream_handle _ _ rfl
    · simp only [h1, ne_eq, not_false_eq_true, if_true]

/-- Putting a slot back where it was taken from changes nothing. -/
theorem Container.setSlot_slot_self (c : Container T) (i : Bool) :
    c.setSlot i (c.slot i) = c := by
  cases i <;> cases c <;> rfl


/-- Counterexample for C10: a module whose update-inactive entry point checks that the map
is complete. The constructor builds its runner; on the map omitting `L__self___w_add`,
`update_inactive_constant_buffer` fails while `update_constant_buffer` with
`use_inactive = true` and `check_full_update = false` succeeds. -/
theorem update_inactive_own_entry_point_counterexample :
    (AOTIModelContainerRunner.ctor (hostOf exampleValidatingLibrary []) "model.so" 1 "cpu" ""
      false (exampleWorld false)).1 = .ok exampleValidatingRunner ∧
    (exampleValidatingRunner.update_inactive_constant_buffer exampleMissingMap
      (exampleWorld false)).1 =
      .error (.api_call_failed 1 "AOTInductorModelContainerUpdateInactiveConstantBuffer") ∧
    (exampleValidatingRunner.update_constant_buffer exampleMissingMap true false
      (exampleWorld false)).1 = .ok () :=
  ⟨rfl, rfl, rfl⟩

/-- C10 (amended): `update_inactive_constant_buffer(m)` forwards to the update-inactive
entry point of the artifact and `update_constant_buffer(m, true, false)` to the update entry
point: each makes exactly that one call, succeeds exactly when its entry point returns the
success status, and leaves the artifact memory as its entry point left it. Whenever the two
entry points agree on the map and the container state, the two operations succeed or fail
together and leave the container in the same state. -/
theorem update_inactive_forwards_to_own_entry_point (r : AOTIModelContainerRunner σ C T)
    (m : TensorConstantMap T) (w : World σ T) :
    (r.update_inactive_constant_buffer m w).2 =
      { artifact := (r.update_inactive_constant_buffer_func_.code r.container_handle_ m
          w.artifact).2,
        trace := w.trace ++ [⟨r.update_inactive_constant_buffer_func_.symbol,
          Args.update_inactive m,
          (r.update_inactive_constant_buffer_func_.code r.container_handle_ m
            w.artifact).1⟩] } ∧
    ((r.update_inactive_constant_buffer m w).1 = .ok () ↔
      (r.update_inactive_constant_buffer_func_.code r.container_handle_ m w.artifact).1 = 0) ∧
    (r.update_constant_buffer m true false w).2 =
      { artifact := (r.update_constant_buffer_func_.code r.container_handle_ m true false
          w.artifact).2,
        trace := w.trace ++ [⟨r.update_constant_buffer_func_.symbol,
          Args.update m true false,
          (r.update_constant_buffer_func_.code r.container_handle_ m true false
            w.artifact).1⟩] } ∧
    ((r.update_constant_buffer m true false w).1 = .ok () ↔
      (r.update_constant_buffer_func_.code r.container_handle_ m true false w.artifact).1 =
        0) ∧
    (r.update_inactive_constant_buffer_func_.code r.container_handle_ m w.artifact =
        r.update_constant_buffer_func_.code r.container_handle_ m true false w.artifact →
      ((r.update_inactive_constant_buffer m w).1 = .ok () ↔
        (r.update_constant_buffer m true false w).1 = .ok ()) ∧
      (r.update_inactive_constant_buffer m w).2.artifact =
        (r.update_constant_buffer m true false w).2.artifact) := by
  have h1 : (r.update_inactive_constant_buffer m w).2 =
        { artifact := (r.update_inactive_constant_buffer_func_.code r.container_handle_ m
            w.artifact).2,
          trace := w.trace ++ [⟨r.update_inactive_constant_buffer_func_.symbol,
            Args.update_inactive m,
            (r.update_inactive_constant_buffer_func_.code r.container_handle_ m
              w.artifact).1⟩] } ∧
      ((r.update_inactive_constant_buffer m w).1 = .ok () ↔
        (r.update_inactive_constant_buffer_func_.code r.container_handle_ m
          w.artifact).1 = 0) := by
    unfold AOTIModelContainerRunner.update_inactive_constant_buffer
      AOTI_RUNTIME_ERROR_CODE_CHECK callEntry noOut
    by_cases hst : (r.update_inactive_constant_buffer_func_.code r.container_handle_ m
      w.artifact).1 = 0
    · simp [hst, AOTI_RUNTIME_SUCCESS]
    · simp [hst, AOTI_RUNTIME_SUCCESS]
  have h2 : (r.update_constant_buffer m true false w).2 =
        { artifact := (r.update_constant_buffer_func_.code r.container_handle_ m true false
            w.artifact).2,
          trace := w.trace ++ [⟨r.update_constant_buffer_func_.symbol,
            Args.update m true false,
            (r.update_constant_buffer_func_.code r.container_handle_ m true false
              w.artifact).1⟩] } ∧
      ((r.update_constant_buffer m true false w).1 = .ok () ↔
        (r.update_constant_buffer_func_.code r.container_handle_ m true false
          w.artifact).1 = 0) := by
    unfold AOTIModelContainerRunner.update_constant_buffer
      AOTI_RUNTIME_ERROR_CODE_CHECK callEntry noOut
    by_cases hst : (r.update_constant_buffer_func_.code r.container_handle_ m true false
      w.artifact).1 = 0
    · simp [hst, AOTI_RUNTIME_SUCCESS]
    · simp [hst, AOTI_RUNTIME_SUCCESS]
  refine ⟨h1.1, h1.2, h2.1, h2.2, ?_⟩
  intro hagree
  refine ⟨?_, ?_⟩
  · rw [h1.2, h2.2, hagree]
  · rw [h1.1, h2.1, hagree]

/-- Witness for C10: on the example artifact the two entry points agree on the map omitting
`L__self___w_add`, and the two operations succeed together and leave the same container. -/
theorem update_inactive_forwards_to_own_entry_point_witness :
    (exampleRunner false).update_inactive_constant_buffer_func_.code
        (exampleRunner false).container_handle_ exampleMissingMap
        (exampleWorld false).artifact =
      (exampleRunner false).update_constant_buffer_func_.code
        (exampleRunner false).container_handle_ exampleMissingMap true false
        (exampleWorld false).artifact ∧
    (((exampleRunner false).update_inactive_constant_buffer exampleMissingMap
        (exampleWorld false)).1 = .ok () ↔
      ((exampleRunner false).update_constant_buffer exampleMissingMap true false
        (exampleWorld false)).1 = .ok ()) ∧
    ((exampleRunner false).update_inactive_constant_buffer exampleMissingMap
        (exampleWorld false)).2.artifact =
      ((exampleRunner false).update_constant_buffer exampleMissingMap true false
        (exampleWorld false)).2.artifact ∧
    ((exampleRunner false).update_inactive_constant_buffer exampleMissingMap
        (exampleWorld false)).1 = .ok () :=
  ⟨rfl,
   ((update_inactive_forwards_to_own_entry_point (exampleRunner false) exampleMissingMap
      (exampleWorld false)).2.2.2.2 rfl).1,
   ((update_inactive_forwards_to_own_entry_point (exampleRunner false) exampleMissingMap
      (exampleWorld false)).2.2.2.2 rfl).2,
   (update_inactive_forwards_to_own_entry_point (exampleRunner false) exampleMissingMap
      (exampleWorld false)).2.1.mpr rfl⟩

end Forwarding
end AOTI
